import Mathlib

/-!
Verification of the Pi5WebcamRecorder core: the per-camera GPIO pulse-train
decoder and recording-session state machine (`CamObj.py`), the producer-side
frame downsampling/backpressure loop (`CamObj.read_camera_continuous`), the
consumer loop (`CamObj.consumer_thread` / `CamObj.process_one_frame`), and the
cross-process shared-memory ring buffer (`extra/shared_arrays.py`).

Timestamps and durations are modelled as integers counting microseconds, so
every threshold in the source (0.005s, 0.1s, 0.15s, ...) is an exact integer
constant.  The Python code reads `time.time()` at slightly different instants
inside one edge handler; the model uses the single edge timestamp throughout,
which is the intended semantics of the 1kHz polling loop (`CamObj.GPIO_thread`).
-/

namespace Pi5Webcam

/-- Config default: `NUM_TTL_PULSES_TO_START_SESSION` (config fallback 2). -/
def NUM_TTL_PULSES_TO_START_SESSION : ℕ := 2

/-- Config default: `NUM_TTL_PULSES_TO_STOP_SESSION` (config fallback 3). -/
def NUM_TTL_PULSES_TO_STOP_SESSION : ℕ := 3

/-- Microseconds discriminating a binary 0 pulse from a binary 1 pulse
(`BINARY_BIT_PULSE_THRESHOLD = 0.1` seconds in `CamObj.py`). -/
def BINARY_BIT_PULSE_THRESHOLD : ℤ := 100000

/-- Config default: `RECORD_FRAME_RATE` (config fallback 30 fps). -/
def RECORD_FRAME_RATE : ℚ := 30

/-- The four decoder modes (`CamObj.TTL_type`). -/
inductive TTLType where
  | Normal
  | Binary
  | Checksum
  | Debug
deriving DecidableEq

/-- Pending operator actions (`CamObj.PendingAction`). -/
inductive PendingAction where
  | Nothing
  | StartRecord
  | ForceStop
  | Exiting
deriving DecidableEq

/-- Values taken by `CamObj.current_animal_ID` (a string in the source). -/
inductive AnimalID where
  | pending                -- "Pending": binary transmission in progress
  | unknown                -- "Unknown": wrong bit count
  | checksumFail           -- "Checksum fail"
  | idNum (n : ℕ)          -- str(TTL_tmp_ID): successfully received ID
  | stressTest             -- "StressTest"
deriving DecidableEq

/-- Status of the cv2.VideoWriter object held in `CamObj.Writer`. -/
inductive WriterState where
  | noWriter                  -- self.Writer is None
  | createdW (isOpen : Bool)  -- writer object exists; isOpen = Writer.isOpened()
  | releasedW                 -- writer object exists but release() was called
deriving DecidableEq

/-- Status of a text-file handle (`CamObj.fid` / `CamObj.fid_TTL`). -/
inductive FileState where
  | noFile                 -- the field is None
  | openF                  -- open file object
  | closedF                -- file object present but close() was called
deriving DecidableEq

/-- Per-camera state: the fields of `CamObj` that the decoder, the session
state machine and the consumer read or write, plus ghost event logs
(`sessionStarts`, `ttlRows`, `frameRows`) recording the externally visible
events (successful session starts, rows written to the TTL / frame timestamp
files). -/
structure CamState where
  ttlMode : TTLType                 -- TTL_mode
  lastRise : ℤ                      -- most_recent_gpio_rising_edge_time
  lastFall : ℤ                      -- most_recent_gpio_falling_edge_time
  numConsecTTLs : ℕ                 -- num_consec_TTLs
  ttlBinaryBits : ℕ                 -- TTL_binary_bits
  ttlTmpID : ℕ                      -- TTL_tmp_ID
  ttlChecksum : ℕ                   -- TTL_checksum (0 or 1)
  ttlDebugCount : ℕ                 -- TTL_debug_count
  ttlNum : ℤ                        -- TTL_num
  gpioActive : Bool                 -- GPIO_active (blue-dot live pulse flag)
  pendingStartTimer : ℕ             -- pending_start_timer
  isRecording : Bool                -- IsRecording
  pending : PendingAction           -- pending
  pendingStopRecordTime : ℤ         -- pending_stop_record_time
  startRecordingTime : ℤ            -- start_recording_time
  framesReceived : ℤ                -- frames_received
  framesRecorded : ℤ                -- frames_recorded
  droppedRecordingFrames : ℤ        -- dropped_recording_frames
  lastFrameWritten : ℤ              -- last_frame_written
  lastFrameReceivedElapsedTime : ℤ  -- last_frame_received_elapsed_time
  animalID : Option AnimalID        -- current_animal_ID
  writer : WriterState              -- Writer
  fid : FileState                   -- fid
  fidTTL : FileState                -- fid_TTL
  camOpen : Bool                    -- self.cam is not None and self.cam.isOpened()
  debugFlag : Bool                  -- the module-level DEBUG flag
  pendingFires : List ℤ             -- wake times of live delayed_start threads
  sessionStarts : ℕ                 -- ghost: number of successful session starts
  ttlRows : List (ℤ × ℤ × ℤ)        -- ghost: rows written to the TTL timestamp file
  frameRows : List (ℤ × ℤ)          -- ghost: rows written to the frame timestamp file
deriving DecidableEq

/-- The state of a freshly constructed `CamObj` with an open camera
(`CamObj.__init__` plus the class-level defaults), GPIO not yet seen. -/
def initState : CamState where
  ttlMode := .Normal
  lastRise := -1
  lastFall := -1
  numConsecTTLs := 0
  ttlBinaryBits := 0
  ttlTmpID := 0
  ttlChecksum := 0
  ttlDebugCount := 0
  ttlNum := -1
  gpioActive := false
  pendingStartTimer := 0
  isRecording := false
  pending := .Nothing
  pendingStopRecordTime := 0
  startRecordingTime := 0
  framesReceived := 0
  framesRecorded := 0
  droppedRecordingFrames := 0
  lastFrameWritten := 0
  lastFrameReceivedElapsedTime := 0
  animalID := none
  writer := .noWriter
  fid := .noFile
  fidTTL := .noFile
  camOpen := true
  debugFlag := false
  pendingFires := []
  sessionStarts := 0
  ttlRows := []
  frameRows := []

/-- Which of the fallible file-system operations inside `CamObj.start_record`
succeed: whether `cv2.VideoWriter(...)` raises, whether the created writer
reports `isOpened()`, and whether opening the two timestamp text files
succeeds. -/
structure StartOutcome where
  writerRaises : Bool
  writerOpens : Bool
  fidOk : Bool
  fidTTLOk : Bool
deriving DecidableEq

/-- The no-failure outcome: every file-system operation succeeds. -/
def StartOutcome.allOk : StartOutcome :=
  ⟨false, true, true, true⟩

/-- Embedding of `CamObj.start_record` (no `animal_ID` argument, no stress
test), called at time `t`.  Returns the new state together with the Python
return value (`none` models Python's implicit `None` when already
recording). -/
def start_record (o : StartOutcome) (t : ℤ) (s : CamState) :
    CamState × Option Bool :=
  if ¬ s.camOpen then (s, some false)
  else if s.isRecording then (s, none)
  else
    -- counters are reset before any file is touched
    let s1 := { s with framesReceived := 0, framesRecorded := 0, ttlNum := 0 }
    if o.writerRaises then (s1, some false)
    else
      let s2 := { s1 with writer := .createdW o.writerOpens }
      -- a writer that fails isOpened() is only logged; the code's
      -- `return False` at that point is commented out
      if ¬ o.fidOk then
        ({ s2 with writer := .releasedW }, some false)
      else
        let s3 := { s2 with fid := .openF }
        if ¬ o.fidTTLOk then
          ({ s3 with fid := .closedF, writer := .releasedW }, some false)
        else
          ({ s3 with fidTTL := .openF,
                     startRecordingTime := t,
                     droppedRecordingFrames := 0,
                     isRecording := true,
                     sessionStarts := s3.sessionStarts + 1 }, some true)

/-- Embedding of `CamObj.stop_record` called at time `t`. -/
def stop_record (force : Bool) (t : ℤ) (s : CamState) : CamState :=
  let s1 := if force then { s with pending := .ForceStop }
            else { s with pendingStopRecordTime := t }
  if s1.pending = .StartRecord then { s1 with pending := .Nothing } else s1

/-- Embedding of `CamObj.__stop_recording_now`. -/
def stop_recording_now (s : CamState) : CamState :=
  { s with animalID := none,
           isRecording := false,
           framesReceived := 0,
           framesRecorded := 0,
           writer := .noWriter,
           fid := .noFile,
           fidTTL := .noFile }

/-- Embedding of `CamObj.handle_GPIO`, reached from the falling-edge handler
after `num_consec_TTLs` has been incremented; `t` is the falling-edge time.
Spawning the `delayed_start` thread is modelled by appending its wake time
`t + 500000` (`wait_interval_sec = 0.5`) to `pendingFires`; the thread sets
`pending_start_timer = int(RECORD_FRAME_RATE * 0.5 + 1) = 16` before
sleeping. -/
def handle_GPIO_pulse (t : ℤ) (s : CamState) : CamState :=
  if ¬ s.isRecording then
    if s.numConsecTTLs = NUM_TTL_PULSES_TO_START_SESSION then
      { s with pendingFires := s.pendingFires ++ [t + 500000],
               pendingStartTimer := 16 }
    else s
  else
    let onset := s.lastRise - s.startRecordingTime
    let offset := s.lastFall - s.startRecordingTime
    let s1 := { s with ttlNum := s.ttlNum + 1 }
    let s2 :=
      if s1.fidTTL = .openF then
        if 0 < s1.pendingStopRecordTime ∧ s1.pendingStopRecordTime < s1.lastRise
        then s1    -- stop already issued before this pulse: row not saved
        else { s1 with ttlRows := s1.ttlRows ++ [(s1.ttlNum, onset, offset)] }
      else s1
    if s2.numConsecTTLs ≥ NUM_TTL_PULSES_TO_STOP_SESSION then
      stop_record false t s2
    else s2

/-- Embedding of `CamObj.GPIO_rising_edge` at time `t`.  Pauses are in
microseconds: the burst-gap threshold 0.1s is 100000, the checksum-switch
band (0.15s, 0.5s) is (150000, 500000), and the debug cancel bound 1s is
1000000. -/
def GPIO_rising_edge (t : ℤ) (s : CamState) : CamState :=
  let pause := t - s.lastFall
  let s1 := { s with lastRise := t, gpioActive := true }
  let s2 := if pause > 100000 then { s1 with numConsecTTLs := 0 } else s1
  match s2.ttlMode with
  | .Binary =>
      if 150000 < pause ∧ pause < 500000 then
        let s3 := if s2.ttlBinaryBits ≠ 16
                  then { s2 with animalID := some .unknown } else s2
        { s3 with ttlMode := .Checksum }
      else if pause ≥ 250000 then { s2 with ttlMode := .Normal }
      else s2
  | .Debug =>
      if pause > 1000000 then { s2 with ttlMode := .Normal }
      else s2          -- off-duty-cycle deviations are only logged
  | _ => s2

/-- Embedding of `CamObj.GPIO_falling_edge` at time `t`.  Widths are in
microseconds: the debounce bound 0.005s is 5000, the trial band bound 0.2s is
200000, the binary-entry band bound 0.4s is 400000, and the debug-entry band
(2.4s, 2.6s) is (2400000, 2600000). -/
def GPIO_falling_edge (t : ℤ) (s : CamState) : CamState :=
  let s1 := { s with lastFall := t, gpioActive := false }
  if s1.lastRise < 0 then s1     -- no rising edge seen yet
  else
    let on_time := t - s1.lastRise
    if on_time < 5000 then s1    -- debounce: very short pulses ignored
    else
      match s1.ttlMode with
      | .Normal =>
          if on_time < 200000 then
            handle_GPIO_pulse t { s1 with numConsecTTLs := s1.numConsecTTLs + 1 }
          else if on_time < 400000 then
            if ¬ s1.isRecording then
              { s1 with ttlMode := .Binary,
                        animalID := some .pending,
                        ttlTmpID := 0,
                        ttlBinaryBits := 0,
                        ttlChecksum := 0,
                        numConsecTTLs := 0 }
            else
              -- while recording a 0.2-0.4s pulse is treated as a regular TTL
              handle_GPIO_pulse t { s1 with numConsecTTLs := s1.numConsecTTLs + 1 }
          else if 2400000 < on_time ∧ on_time < 2600000 ∧ s1.debugFlag then
            { s1 with ttlMode := .Debug, ttlDebugCount := 0 }
          else s1
      | .Checksum =>
          if on_time < BINARY_BIT_PULSE_THRESHOLD then
            -- checksum bit 0
            if s1.ttlChecksum = 0 then
              { s1 with animalID := some (.idNum s1.ttlTmpID), ttlMode := .Normal }
            else
              { s1 with animalID := some .checksumFail, ttlMode := .Normal }
          else if on_time < BINARY_BIT_PULSE_THRESHOLD * 3 then
            -- checksum bit 1
            if s1.ttlChecksum = 1 then
              { s1 with animalID := some (.idNum s1.ttlTmpID), ttlMode := .Normal }
            else
              { s1 with animalID := some .checksumFail, ttlMode := .Normal }
          else
            { s1 with animalID := some .checksumFail, ttlMode := .Normal }
      | .Binary =>
          let s2 := { s1 with ttlBinaryBits := s1.ttlBinaryBits + 1,
                              ttlTmpID := s1.ttlTmpID * 2 }
          if BINARY_BIT_PULSE_THRESHOLD < on_time then
            -- a long pulse is a binary ONE; widths above twice the threshold
            -- are only warned about and still treated as ONE
            { s2 with ttlChecksum := 1 - s2.ttlChecksum,
                      ttlTmpID := s2.ttlTmpID + 1 }
          else s2
      | .Debug =>
          if on_time > 1000000 then { s1 with ttlMode := .Normal }
          else { s1 with ttlDebugCount := s1.ttlDebugCount + 1 }

/-- Waking of one `delayed_start` thread at its wake time `ft`
(`CamObj.delayed_start` after the sleep): if a further pulse has arrived the
start is abandoned, else `start_record` runs. -/
def fire_one (o : StartOutcome) (ft : ℤ) (s : CamState) : CamState :=
  if s.numConsecTTLs > NUM_TTL_PULSES_TO_START_SESSION then s
  else (start_record o ft s).1

/-- Wake every `delayed_start` thread whose wake time has been reached by
time `t` (wake times are appended in increasing order). -/
def fireReady (o : StartOutcome) (t : ℤ) (s : CamState) : CamState :=
  let ready := s.pendingFires.takeWhile (fun ft => ft ≤ t)
  let later := s.pendingFires.dropWhile (fun ft => ft ≤ t)
  ready.foldl (fun st ft => fire_one o ft st) { s with pendingFires := later }

/-- Wake every remaining `delayed_start` thread (used after the last edge of
a scenario, once the settle window has elapsed with no further pulse). -/
def fireAll (o : StartOutcome) (s : CamState) : CamState :=
  s.pendingFires.foldl (fun st ft => fire_one o ft st) { s with pendingFires := [] }

/-- One hardware edge with its timestamp. -/
inductive Edge where
  | rise (t : ℤ)
  | fall (t : ℤ)
deriving DecidableEq

/-- Process one edge: any `delayed_start` thread whose sleep has expired runs
first, then the edge handler. -/
def procEdge (o : StartOutcome) (s : CamState) (e : Edge) : CamState :=
  match e with
  | .rise t => GPIO_rising_edge t (fireReady o t s)
  | .fall t => GPIO_falling_edge t (fireReady o t s)

/-- Process a time-ordered list of edges. -/
def runEdges (o : StartOutcome) (s : CamState) (es : List Edge) : CamState :=
  es.foldl (procEdge o) s

/-- Opening step of `CamObj.process_one_frame`: apply a pending force-stop,
an expired stop deadline, or a pending operator start, in the source's
order. -/
def pof_apply_pending (o : StartOutcome) (t : ℤ) (s : CamState) : CamState :=
  let sA := if s.pending = .ForceStop
            then stop_recording_now { s with pending := .Nothing } else s
  if sA.isRecording ∧ 0 < sA.pendingStopRecordTime ∧ sA.pendingStopRecordTime < t
  then stop_recording_now { sA with pendingStopRecordTime := 0 }
  else if sA.pending = .StartRecord then
    (start_record o t { sA with pending := .Nothing }).1
  else sA

/-- Counter updates of `process_one_frame`: `frames_received += gap`,
`dropped_recording_frames += gap - 1` when `gap > 1`, `frames_recorded += 1`,
all only while recording with a non-negative elapsed time. -/
def pof_counters (gap te : ℤ) (s : CamState) : CamState :=
  let sD := if s.isRecording ∧ 0 ≤ te then
              { s with framesReceived := s.framesReceived + gap,
                       droppedRecordingFrames :=
                         if gap > 1 then s.droppedRecordingFrames + (gap - 1)
                         else s.droppedRecordingFrames }
            else s
  if sD.isRecording ∧ 0 ≤ te then
    { sD with framesRecorded := sD.framesRecorded + 1 }
  else sD

/-- Pending-start countdown overlay tick of `process_one_frame`. -/
def pof_timer_tick (s : CamState) : CamState :=
  if s.pendingStartTimer > 0 then
    { s with pendingStartTimer := s.pendingStartTimer - 1 }
  else s

/-- Sink writes of `process_one_frame`: the timestamp row and the video
frame; either write failing force-stops this session only. -/
def pof_write (sinkOk : Bool) (te : ℤ) (s : CamState) : CamState :=
  if s.isRecording ∧ 0 ≤ te then
    if s.fid = .openF ∧ ¬ sinkOk then
      stop_recording_now s             -- timestamp write failed: stop, return
    else
      let sG := if s.fid = .openF then
                  { s with frameRows := s.frameRows ++ [(s.framesReceived, te)] }
                else s
      if sG.writer ≠ .noWriter then
        if sinkOk then { sG with lastFrameWritten := sG.framesReceived }
        else stop_recording_now sG     -- video write failed: stop
      else sG
  else s

/-- Embedding of `CamObj.process_one_frame` for one delivered frame: `t` is
the frame's capture timestamp, `gap` the sequence-number gap computed by the
consumer.  `sinkOk` tells whether the sink writes (timestamp row and video
frame) succeed.  Pixel operations (overlays, grayscale conversion) have no
state besides `pending_start_timer` and are not modelled. -/
def process_one_frame (o : StartOutcome) (sinkOk : Bool) (t gap : ℤ)
    (s : CamState) : CamState :=
  let sB := pof_apply_pending o t s
  if ¬ sB.camOpen then sB
  else
    let te := t - sB.startRecordingTime
    pof_write sinkOk te
      (pof_timer_tick
        (pof_counters gap te { sB with lastFrameReceivedElapsedTime := te }))

/-- The consumer-loop state (`CamObj.consumer_thread`): the camera state plus
the previous delivered sequence number used for gap inference. -/
structure ConsState where
  cam : CamState
  prevFramesReceived : ℤ
deriving DecidableEq

/-- One delivered frame tuple `(frame, t, TTL, frame_count)` as popped from
the transport (pixels not modelled). -/
structure Delivery where
  seq : ℤ
  t : ℤ
  ttlOn : Bool
deriving DecidableEq

/-- Embedding of one iteration of `CamObj.consumer_thread`: infer the
sequence gap, remember the sequence number, process the frame.  The model
takes the processing instant to be the capture timestamp (zero CPU lag), so
the not-recording high-lag skip branch cannot fire and is not modelled. -/
def consumer_step (o : StartOutcome) (sinkOk : Bool) (cs : ConsState)
    (d : Delivery) : ConsState :=
  let gap := d.seq - cs.prevFramesReceived
  { cam := process_one_frame o sinkOk d.t gap cs.cam,
    prevFramesReceived := d.seq }

/-- Run the consumer loop over a list of deliveries. -/
def runConsumer (o : StartOutcome) (sinkOk : Bool) (cs : ConsState)
    (ds : List Delivery) : ConsState :=
  ds.foldl (consumer_step o sinkOk) cs

/-! ## Producer: `CamObj.read_camera_continuous` -/

/-- Producer-loop state: the downsampling cycle counter, the forwarded-frame
counter, the in-process transport (`self.q`, a FIFO of
`(frame, frame_time, TTL_on, count_sent_frames)` tuples, pixels not
modelled), and the rate-limit clock for drop warnings. -/
structure ProducerState where
  countCycle : ℕ                   -- count_cycle
  countSentFrames : ℤ              -- count_sent_frames
  queue : List (ℤ × ℤ × Bool)      -- self.q: (seq, frame_time, TTL_on)
  lastDropWarning : ℤ              -- last_dropped_frame_warning
deriving DecidableEq

/-- The producer at the top of its loop (`count_cycle = 0`,
`count_sent_frames = 0`, empty queue). -/
def freshProducer : ProducerState :=
  { countCycle := 0, countSentFrames := 0, queue := [], lastDropWarning := 0 }

/-- The producer and session state of one camera.  The capture loop reads the
session state (`GPIO_active`) but never writes it. -/
structure PipelineState where
  cam : CamState
  prod : ProducerState
deriving DecidableEq

/-- Embedding of `CamObj.read_camera_continuous`'s per-capture downsampling
and push (lines with `count_cycle`/`count_interval`/`self.q.put`): every
`k`-th captured frame is stamped with the next sequence number and pushed,
unless the transport already holds more than 250 items, in which case the
frame is dropped on the spot (a rate-limited diagnostic only). -/
def producer_capture (k : ℕ) (t : ℤ) (st : PipelineState) : PipelineState :=
  let p := st.prod
  let c := p.countCycle + 1
  if c = k then
    let sent := p.countSentFrames + 1
    if p.queue.length > 250 then
      { st with prod :=
          { p with countCycle := 0, countSentFrames := sent,
                   lastDropWarning :=
                     if t - p.lastDropWarning > 5000000 then t
                     else p.lastDropWarning } }
    else
      { st with prod :=
          { p with countCycle := 0, countSentFrames := sent,
                   queue := p.queue ++ [(sent, t, st.cam.gpioActive)] } }
  else
    { st with prod := { p with countCycle := c } }

/-- Run the producer over a list of capture timestamps. -/
def runProducer (k : ℕ) (ts : List ℤ) (st : PipelineState) : PipelineState :=
  ts.foldl (fun st t => producer_capture k t st) st

/-- The downsampling interval `count_interval = math.ceil(native_fps /
RECORD_FRAME_RATE)` of `CamObj.read_camera_continuous`. -/
def count_interval (native target : ℚ) : ℤ :=
  ⌈native / target⌉

/-! ## Cross-process ring buffer: `extra/shared_arrays.py` -/

/-- Modelled from the spec: `extra/portable_queue.py` (imported by
`shared_arrays.py` but absent from the sources) is, per spec §4.3, a
"lightweight conventional cross-process channel" carrying only small control
records; it is modelled as a plain FIFO list. -/
abbrev PortableQueue (α : Type) : Type := List α

/-- A numpy dtype, identified by a tag, with its item size in bytes. -/
structure Dtype where
  tag : ℕ
  itemsize : ℕ
deriving DecidableEq

/-- The metadata of a numpy array pushed through the queue (pixel contents
are not modelled). -/
structure NpElement where
  dtype : Dtype
  shape : List ℕ
deriving DecidableEq

/-- Embedding of `shared_arrays.ArrayView`: the typed wrap-around view over
the shared byte arena (`n_items = floor(max_bytes / nbytes_el)`). -/
structure ArrayView where
  dtype : Dtype
  elShape : List ℕ
  nItems : ℕ
  idxItem : ℕ
deriving DecidableEq

/-- `ArrayView.__init__` with `i_item = 0`. -/
def mkArrayView (maxBytes : ℕ) (dtype : Dtype) (elShape : List ℕ) : ArrayView :=
  { dtype := dtype, elShape := elShape,
    nItems := maxBytes / (dtype.itemsize * elShape.prod),
    idxItem := 0 }

/-- `ArrayView.fits` on a candidate numpy array. -/
def ArrayView.fits (v : ArrayView) (el : NpElement) : Bool :=
  el.dtype == v.dtype && el.shape == v.elShape

/-- `ArrayView.push`: write the element into the current slot, advance the
write index modulo `n_items`, and return the control record
`(dtype, el_shape, idx_inserted)`. -/
def ArrayView.push (v : ArrayView) : ArrayView × (Dtype × List ℕ × ℕ) :=
  ({ v with idxItem := (v.idxItem + 1) % v.nItems },
   (v.dtype, v.elShape, v.idxItem))

/-- Result of a put: normal return, or the `queue.Full` exception raised by
`check_full`. -/
inductive PutResult where
  | ok
  | fullErr
deriving DecidableEq

/-- Embedding of `shared_arrays.ArrayQueue`'s state. -/
structure ArrayQueueState where
  maxBytes : ℕ                              -- self.maxbytes
  view : Option ArrayView                   -- self.view
  queue : PortableQueue (Dtype × List ℕ × ℕ)  -- self.queue
  readQueue : PortableQueue ℕ               -- self.read_queue
  lastItem : ℕ                              -- self.last_item
deriving DecidableEq

/-- Embedding of `ArrayQueue.check_full`: drain the read queue to learn the
last slot index the consumer has read, then report whether the write index
has caught up with it (in the source this raises `queue.Full`). -/
def ArrayQueue_check_full (v : ArrayView) (s : ArrayQueueState) :
    ArrayQueueState × Bool :=
  let last := s.readQueue.getLastD s.lastItem
  ({ s with lastItem := last, readQueue := [] }, v.idxItem == last)

/-- Push the element through the view and enqueue its control record. -/
def ArrayQueue_push_record (s : ArrayQueueState) (v : ArrayView) :
    ArrayQueueState × PutResult :=
  let vr := v.push
  ({ s with view := some vr.1, queue := s.queue ++ [vr.2] }, .ok)

/-- Embedding of `ArrayQueue.put`: a dtype/shape mismatch silently
reallocates the view over the arena (resetting `last_item`); a matching
element is pushed after `check_full` may raise `Full`. -/
def ArrayQueue_put (s : ArrayQueueState) (el : NpElement) :
    ArrayQueueState × PutResult :=
  match s.view with
  | none =>
      let v := mkArrayView s.maxBytes el.dtype el.shape
      ArrayQueue_push_record { s with view := some v, lastItem := 0 } v
  | some v =>
      if ¬ v.fits el then
        let v2 := mkArrayView s.maxBytes el.dtype el.shape
        ArrayQueue_push_record { s with view := some v2, lastItem := 0 } v2
      else
        let sf := ArrayQueue_check_full v s
        if sf.2 then (sf.1, .fullErr)
        else ArrayQueue_push_record sf.1 v

/-- Embedding of `shared_arrays.TimestampedArrayQueue`'s state: the control
channel carries `(timestamp, TTL_on, (dtype, shape, idx))`. -/
structure TSArrayQueueState where
  maxBytes : ℕ
  view : Option ArrayView
  queue : PortableQueue (ℤ × Bool × (Dtype × List ℕ × ℕ))
  readQueue : PortableQueue ℕ
  lastItem : ℕ
deriving DecidableEq

/-- Embedding of `TimestampedArrayQueue.put` at wall-clock time `now`: like
`ArrayQueue.put` but the control record is timestamped and carries the pulse
flag, and reallocation does not reset `last_item`. -/
def TimestampedArrayQueue_put (now : ℤ) (ttlOn : Bool)
    (s : TSArrayQueueState) (el : NpElement) : TSArrayQueueState × PutResult :=
  match s.view with
  | none =>
      let v := mkArrayView s.maxBytes el.dtype el.shape
      let vr := v.push
      ({ s with view := some vr.1, queue := s.queue ++ [(now, ttlOn, vr.2)] }, .ok)
  | some v =>
      if ¬ v.fits el then
        let v2 := mkArrayView s.maxBytes el.dtype el.shape
        let vr := v2.push
        ({ s with view := some vr.1, queue := s.queue ++ [(now, ttlOn, vr.2)] }, .ok)
      else
        let last := s.readQueue.getLastD s.lastItem
        let s1 := { s with lastItem := last, readQueue := [] }
        if v.idxItem == last then (s1, .fullErr)
        else
          let vr := v.push
          ({ s1 with view := some vr.1,
                     queue := s1.queue ++ [(now, ttlOn, vr.2)] }, .ok)

/-! ## Binary-ID transmission encoder (spec §4.1, Binary-ID and Checksum) -/

/-- Pulse width encoding one bit: 150000µs (0.15s) for 1, 50000µs (0.05s)
for 0 — the 50/150ms scheme in force since 8/7/2024, threshold 100ms. -/
def bitWidth (b : Bool) : ℤ := if b then 150000 else 50000

/-- The most-significant-bit-first bit string of `v`, `n` bits long. -/
def msbBits : ℕ → ℕ → List Bool
  | 0, _ => []
  | n+1, v => (v / 2^n % 2 == 1) :: msbBits n v

/-- Edges of a bit train in Binary mode: each bit follows a 50000µs (0.05s)
inter-bit pause, starting from the previous falling edge at `t`. -/
def bitEdges : ℤ → List Bool → List Edge
  | _, [] => []
  | t, b :: rest =>
      .rise (t + 50000) :: .fall (t + 50000 + bitWidth b)
        :: bitEdges (t + 50000 + bitWidth b) rest

/-- The falling-edge time of the last bit of a train started at `t`. -/
def bitEdgesEnd : ℤ → List Bool → ℤ
  | t, [] => t
  | t, b :: rest => bitEdgesEnd (t + 50000 + bitWidth b) rest

/-- The parity over a bit train, computed the way the decoder accumulates
`TTL_checksum` (toggle on every 1 bit), from initial value `c`. -/
def parityFold (c : ℕ) (bs : List Bool) : ℕ :=
  bs.foldl (fun c b => if b then 1 - c else c) c

/-- The checksum tail: a 200000µs (0.2s) end-of-transmission pause whose
rising edge switches the decoder to Checksum mode, then one pulse encoding
the parity bit. -/
def checksumEdges (t : ℤ) (par : Bool) : List Edge :=
  [.rise (t + 200000), .fall (t + 200000 + bitWidth par)]

/-- The full edge train transmitting the bit list `bs` (MSB first) with its
correct parity checksum, starting from a falling edge at `t`. -/
def transmission (t : ℤ) (bs : List Bool) : List Edge :=
  bitEdges t bs ++ checksumEdges (bitEdgesEnd t bs) (parityFold 0 bs == 1)

/-- The same transmission with the width of bit `i` corrupted (flipped
between the 0-width and the 1-width); the checksum pulse is unchanged. -/
def flipBit : List Bool → ℕ → List Bool
  | [], _ => []
  | b :: rest, 0 => (!b) :: rest
  | b :: rest, i+1 => b :: flipBit rest i

/-- The decoder state right after a 0.3s pulse in Normal mode switched it to
Binary mode at falling-edge time `t` (binary-entry branch of
`CamObj.GPIO_falling_edge`). -/
def binaryEntryState (t : ℤ) : CamState :=
  { initState with ttlMode := .Binary,
                   animalID := some .pending,
                   lastRise := t - 300000,
                   lastFall := t }

/-- The sequence numbers `1, 2, ..., m` as integers (the expected transport
content for claim C6). -/
def seqList (m : ℕ) : List ℤ :=
  (List.range m).map (fun (j : ℕ) => (j : ℤ) + 1)

/-- The transmission of the bit list `bs` with the width of bit `i`
corrupted (flipped between the 0-width and the 1-width): later edges shift
accordingly, the checksum pulse still encodes the parity of the original
bits. -/
def corruptTransmission (t : ℤ) (bs : List Bool) (i : ℕ) : List Edge :=
  bitEdges t (flipBit bs i)
    ++ checksumEdges (bitEdgesEnd t (flipBit bs i)) (parityFold 0 bs == 1)

/-- The closed form of the decoder state after one bit pulse in Binary mode:
rise after a 50000µs pause, fall after the bit's width; the accumulator
shifts MSB-first and the parity toggles on a 1 bit. -/
def binSpec : ℤ → List Bool → CamState → CamState
  | _, [], s => s
  | t, b :: rest, s =>
      binSpec (t + 50000 + bitWidth b) rest
        { s with lastRise := t + 50000,
                 lastFall := t + 50000 + bitWidth b,
                 gpioActive := false,
                 ttlBinaryBits := s.ttlBinaryBits + 1,
                 ttlTmpID := s.ttlTmpID * 2 + (if b then 1 else 0),
                 ttlChecksum := if b then 1 - s.ttlChecksum else s.ttlChecksum }

/-- Invariant of a healthy recording session (claim C3): the frame counters
balance, the session is recording with no pending commands, the sinks are
open, and `frames_received` equals the last delivered sequence number. -/
def C3Inv (T count : ℤ) (cs : ConsState) : Prop :=
  cs.cam.framesReceived = cs.prevFramesReceived ∧
  cs.cam.droppedRecordingFrames + cs.cam.framesRecorded = cs.cam.framesReceived ∧
  cs.cam.framesRecorded = count ∧
  0 ≤ cs.cam.droppedRecordingFrames ∧
  cs.cam.isRecording = true ∧
  cs.cam.pending = .Nothing ∧
  cs.cam.pendingStopRecordTime = 0 ∧
  cs.cam.camOpen = true ∧
  cs.cam.fid = .openF ∧
  cs.cam.writer = .createdW true ∧
  cs.cam.pendingStartTimer = 0 ∧
  cs.cam.startRecordingTime = T

/-! ## Claim C7: sub-debounce pulses -/

/-- Claim C7 counterexample: a 3ms pulse (below the 5ms debounce width) does
change decoder state: the falling edge handler has already updated the
last-falling-edge time and cleared the live pulse flag before the debounce
check, so "no state change at all" is false at this input. -/
theorem c7_counterexample :
    let s : CamState :=
      { initState with gpioActive := true, lastRise := 10000000, lastFall := 5000000 }
    let s2 := GPIO_falling_edge 10003000 s
    ¬ (s2.gpioActive = s.gpioActive ∧ s2.lastFall = s.lastFall) := by
  decide

/-- Claim C7 as amended: a falling edge whose pulse width is below the
debounce width leaves the mode, the consecutive-pulse count, the ID
accumulator, the parity, the bit count and every other field unchanged and
emits no event, except that the last-falling-edge time is set to the edge
time and the live pulse flag is cleared. -/
theorem c7_amended (s : CamState) (t : ℤ) (h : t - s.lastRise < 5000) :
    GPIO_falling_edge t s = { s with lastFall := t, gpioActive := false } := by
  by_cases h0 : s.lastRise < 0 <;>
    simp [GPIO_falling_edge, h0, h]

/-- Witness for `c7_amended` at a concrete sub-debounce pulse. -/
theorem c7_amended_witness :
    ((10003000 : ℤ) -
      ({ initState with gpioActive := true, lastRise := 10000000,
                        lastFall := 5000000 } : CamState).lastRise < 5000) ∧
    GPIO_falling_edge 10003000
      { initState with gpioActive := true, lastRise := 10000000,
                       lastFall := 5000000 } =
    { ({ initState with gpioActive := true, lastRise := 10000000,
                        lastFall := 5000000 } : CamState) with
        lastFall := 10003000, gpioActive := false } :=
  ⟨by decide,
   c7_amended
     { initState with gpioActive := true, lastRise := 10000000,
                      lastFall := 5000000 }
     10003000 (by decide)⟩

/-! ## Claim C8: out-of-band widths in sub-modes -/

/-- Claim C8 counterexample: a 5s pulse in Binary mode is far outside the
bit-width bands, yet the decoder is not forced back to Normal: the pulse is
treated as a 1 bit (with only a logged warning) and the mode stays Binary. -/
theorem c8_counterexample :
    let s : CamState := { initState with ttlMode := .Binary,
                                         lastRise := 10000000,
                                         lastFall := 9000000 }
    (GPIO_falling_edge 15000000 s).ttlMode = .Binary ∧
    (GPIO_falling_edge 15000000 s).ttlMode ≠ .Normal := by
  decide

/-- Claim C8 as amended: in Checksum mode every non-debounced width returns
the decoder to Normal; in Debug mode an overlong pulse or an overlong gap
(>1s) returns it to Normal; in Binary mode an out-of-band inter-pulse gap
(≥0.5s) at a rising edge returns it to Normal, but an out-of-band pulse
width at a falling edge (beyond twice the bit threshold) is only logged,
is treated as a 1 bit, and leaves the decoder in Binary mode. -/
theorem c8_amended :
    (∀ (s : CamState) (t : ℤ), s.ttlMode = .Checksum → 0 ≤ s.lastRise →
        5000 ≤ t - s.lastRise → (GPIO_falling_edge t s).ttlMode = .Normal)
  ∧ (∀ (s : CamState) (t : ℤ), s.ttlMode = .Debug → 0 ≤ s.lastRise →
        1000000 < t - s.lastRise → (GPIO_falling_edge t s).ttlMode = .Normal)
  ∧ (∀ (s : CamState) (t : ℤ), s.ttlMode = .Debug →
        1000000 < t - s.lastFall → (GPIO_rising_edge t s).ttlMode = .Normal)
  ∧ (∀ (s : CamState) (t : ℤ), s.ttlMode = .Binary →
        500000 ≤ t - s.lastFall → (GPIO_rising_edge t s).ttlMode = .Normal)
  ∧ (∀ (s : CamState) (t : ℤ), s.ttlMode = .Binary → 0 ≤ s.lastRise →
        200000 < t - s.lastRise → (GPIO_falling_edge t s).ttlMode = .Binary) := by
  refine ⟨?_, ?_, ?_, ?_, ?_⟩
  · intro s t hmode h0 h5
    have hA : ¬ s.lastRise < 0 := by omega
    have hB : ¬ (t - s.lastRise < 5000) := by omega
    simp only [GPIO_falling_edge, hA, if_false, hmode]
    split_ifs <;> simp [hmode, hA, hB]
  · intro s t hmode h0 h1
    have hA : ¬ s.lastRise < 0 := by omega
    have hB : ¬ (t - s.lastRise < 5000) := by omega
    have hC : 1000000 < t - s.lastRise := h1
    simp [GPIO_falling_edge, hmode, hA, hB, hC]
  · intro s t hmode h1
    have hA : t - s.lastFall > 100000 := by omega
    simp [GPIO_rising_edge, hmode, hA, h1]
  · intro s t hmode h1
    have hA : t - s.lastFall > 100000 := by omega
    have hB : ¬ (150000 < t - s.lastFall ∧ t - s.lastFall < 500000) := by omega
    have hC : t - s.lastFall ≥ 250000 := by omega
    simp [GPIO_rising_edge, hmode, hA, hB, hC]
  · intro s t hmode h0 h2
    have hA : ¬ s.lastRise < 0 := by omega
    have hB : ¬ (t - s.lastRise < 5000) := by omega
    have hC : BINARY_BIT_PULSE_THRESHOLD < t - s.lastRise := by
      simp only [BINARY_BIT_PULSE_THRESHOLD]; omega
    simp [GPIO_falling_edge, hmode, hA, hB, hC]

/-- Witness for `c8_amended` at concrete states and widths. -/
theorem c8_amended_witness :
    ((GPIO_falling_edge 400000
        { initState with ttlMode := .Checksum, lastRise := 0 }).ttlMode = .Normal)
  ∧ ((GPIO_falling_edge 2000000
        { initState with ttlMode := .Debug, lastRise := 0 }).ttlMode = .Normal)
  ∧ ((GPIO_rising_edge 2000001
        { initState with ttlMode := .Debug, lastFall := 0 }).ttlMode = .Normal)
  ∧ ((GPIO_rising_edge 600000
        { initState with ttlMode := .Binary, lastFall := 0 }).ttlMode = .Normal)
  ∧ ((GPIO_falling_edge 300000
        { initState with ttlMode := .Binary, lastRise := 0 }).ttlMode = .Binary) :=
  ⟨c8_amended.1 _ 400000 (by decide) (by decide) (by decide),
   c8_amended.2.1 _ 2000000 (by decide) (by decide) (by decide),
   c8_amended.2.2.1 _ 2000001 (by decide) (by decide),
   c8_amended.2.2.2.1 _ 600000 (by decide) (by decide),
   c8_amended.2.2.2.2 _ 300000 (by decide) (by decide) (by decide)⟩

/-! ## Claim C9: file-system failure during `start_record` -/

/-- Claim C9 counterexample: a video writer that constructs without raising
but fails `isOpened()` — the common file-system failure mode, per the
source's own comment — does not make `start_record` fail: it returns success
and leaves the session recording with a dead video sink. -/
theorem c9_counterexample :
    let r := start_record ⟨false, false, true, true⟩ 5000000 initState
    r.2 = some true ∧ r.1.isRecording = true ∧ r.1.writer = .createdW false := by
  decide

/-- Claim C9 as amended: if creating the video writer raises, or if opening
the frame-timestamp or TTL-timestamp file fails, `start_record` fails
synchronously — it returns failure, the recording flag stays clear, and
every sink opened so far is closed (the writer released, the timestamp file
closed) — but a video writer that merely fails to open is only logged: the
timestamp files are still created, the recording flag is set, and the call
returns success. -/
theorem c9_amended (o : StartOutcome) (s : CamState) (t : ℤ)
    (hcam : s.camOpen = true) (hrec : s.isRecording = false) :
    (o.writerRaises = true →
      (start_record o t s).2 = some false ∧
      (start_record o t s).1.isRecording = false ∧
      (start_record o t s).1.writer = s.writer ∧
      (start_record o t s).1.fid = s.fid ∧
      (start_record o t s).1.fidTTL = s.fidTTL)
  ∧ (o.writerRaises = false → o.fidOk = false →
      (start_record o t s).2 = some false ∧
      (start_record o t s).1.isRecording = false ∧
      (start_record o t s).1.writer = .releasedW ∧
      (start_record o t s).1.fid = s.fid ∧
      (start_record o t s).1.fidTTL = s.fidTTL)
  ∧ (o.writerRaises = false → o.fidOk = true → o.fidTTLOk = false →
      (start_record o t s).2 = some false ∧
      (start_record o t s).1.isRecording = false ∧
      (start_record o t s).1.writer = .releasedW ∧
      (start_record o t s).1.fid = .closedF ∧
      (start_record o t s).1.fidTTL = s.fidTTL)
  ∧ (o.writerRaises = false → o.fidOk = true → o.fidTTLOk = true →
      (start_record o t s).2 = some true ∧
      (start_record o t s).1.isRecording = true ∧
      (start_record o t s).1.writer = .createdW o.writerOpens ∧
      (start_record o t s).1.fid = .openF ∧
      (start_record o t s).1.fidTTL = .openF) := by
  refine ⟨?_, ?_, ?_, ?_⟩ <;>
    · intro h1
      first
        | (intro h2 h3; simp [start_record, hcam, hrec, h1, h2, h3])
        | (intro h2; simp [start_record, hcam, hrec, h1, h2])
        | simp [start_record, hcam, hrec, h1]

/-- Witness for `c9_amended` at the all-failures-possible corner: a concrete
outcome where the TTL-timestamp file fails. -/
theorem c9_amended_witness :
    (initState.camOpen = true ∧ initState.isRecording = false) ∧
    ((start_record ⟨false, true, true, false⟩ 0 initState).2 = some false ∧
     (start_record ⟨false, true, true, false⟩ 0 initState).1.isRecording = false ∧
     (start_record ⟨false, true, true, false⟩ 0 initState).1.writer = .releasedW ∧
     (start_record ⟨false, true, true, false⟩ 0 initState).1.fid = .closedF ∧
     (start_record ⟨false, true, true, false⟩ 0 initState).1.fidTTL = initState.fidTTL) :=
  ⟨⟨by decide, by decide⟩,
   (c9_amended ⟨false, true, true, false⟩ initState 0 (by decide) (by decide)).2.2.1
     (by decide) (by decide) (by decide)⟩

/-! ## Claim C10: ring-buffer shape mismatch -/

/-- Claim C10 counterexample: pushing an element whose shape does not match
the arena's element shape is not a hard error: `ArrayQueue.put` silently
reallocates the view over the arena with the new shape and returns
normally. -/
theorem c10_counterexample :
    let s0 : ArrayQueueState :=
      { maxBytes := 50000000,
        view := some (mkArrayView 50000000 ⟨0, 1⟩ [480, 640, 3]),
        queue := [], readQueue := [], lastItem := 0 }
    let r := ArrayQueue_put s0 ⟨⟨0, 1⟩, [240, 320, 3]⟩
    r.2 = .ok ∧
    r.1.view = some { dtype := ⟨0, 1⟩, elShape := [240, 320, 3],
                      nItems := 217, idxItem := 1 } := by
  decide

/-- Claim C10 as amended: the element shape is not fixed at arena creation —
a push whose dtype or shape does not match the current view silently
reallocates the view over the arena to the new element's dtype and shape
(resetting the last-read bookkeeping) and returns normally; only a matching
push onto a full ring raises `Full`, leaving the view and the control queue
unchanged. -/
theorem c10_amended :
    (∀ (s : ArrayQueueState) (v : ArrayView) (el : NpElement),
        s.view = some v → v.fits el = false →
        (ArrayQueue_put s el).2 = .ok ∧
        ((ArrayQueue_put s el).1.view.map ArrayView.dtype) = some el.dtype ∧
        ((ArrayQueue_put s el).1.view.map ArrayView.elShape) = some el.shape ∧
        (ArrayQueue_put s el).1.lastItem = 0)
  ∧ (∀ (s : ArrayQueueState) (v : ArrayView) (el : NpElement),
        s.view = some v → v.fits el = true →
        v.idxItem = s.readQueue.getLastD s.lastItem →
        (ArrayQueue_put s el).2 = .fullErr ∧
        (ArrayQueue_put s el).1.view = s.view ∧
        (ArrayQueue_put s el).1.queue = s.queue) := by
  constructor
  · intro s v el hv hfits
    simp [ArrayQueue_put, hv, hfits, ArrayQueue_push_record, ArrayView.push,
          mkArrayView]
  · intro s v el hv hfits hfull
    simp [ArrayQueue_put, hv, hfits, ArrayQueue_check_full, hfull]

/-- Witness for `c10_amended`: a mismatched push and a full-ring push at
concrete states. -/
theorem c10_amended_witness :
    ((ArrayQueue_put
        { maxBytes := 50000000,
          view := some (mkArrayView 50000000 ⟨0, 1⟩ [480, 640, 3]),
          queue := [], readQueue := [], lastItem := 0 }
        ⟨⟨0, 1⟩, [240, 320, 3]⟩).2 = .ok)
  ∧ ((ArrayQueue_put
        { maxBytes := 50000000,
          view := some (mkArrayView 50000000 ⟨0, 1⟩ [480, 640, 3]),
          queue := [], readQueue := [], lastItem := 0 }
        ⟨⟨0, 1⟩, [480, 640, 3]⟩).2 = .fullErr) :=
  ⟨(c10_amended.1
      { maxBytes := 50000000,
        view := some (mkArrayView 50000000 ⟨0, 1⟩ [480, 640, 3]),
        queue := [], readQueue := [], lastItem := 0 }
      (mkArrayView 50000000 ⟨0, 1⟩ [480, 640, 3])
      ⟨⟨0, 1⟩, [240, 320, 3]⟩ (by decide) (by decide)).1,
   (c10_amended.2
      { maxBytes := 50000000,
        view := some (mkArrayView 50000000 ⟨0, 1⟩ [480, 640, 3]),
        queue := [], readQueue := [], lastItem := 0 }
      (mkArrayView 50000000 ⟨0, 1⟩ [480, 640, 3])
      ⟨⟨0, 1⟩, [480, 640, 3]⟩ (by decide) (by decide) (by decide)).1⟩

/-! ## Claim C4: `stop_record` on a non-recording camera -/

/-- Claim C4 evaluated at the failing input: two non-force `stop_record`
calls on an idle camera return without error and write no log rows, but they
are not free of observable effect — the second call leaves
`pending_stop_record_time = 11s`, and a recording started at 20s is then
finalized at its very first delivered frame (timestamp 30s), while the same
start and frame without the idle stop calls leave the session recording. -/
theorem c4_failing_run :
    ((stop_record false 11000000 (stop_record false 10000000 initState)).ttlRows = []
      ∧ (stop_record false 11000000 (stop_record false 10000000 initState)).frameRows = []
      ∧ (stop_record false 11000000 (stop_record false 10000000 initState)).isRecording = false
      ∧ (stop_record false 11000000 (stop_record false 10000000 initState)).pendingStopRecordTime
          = 11000000)
  ∧ (start_record .allOk 20000000
      (stop_record false 11000000 (stop_record false 10000000 initState))).1.isRecording = true
  ∧ (process_one_frame .allOk true 30000000 1
      (start_record .allOk 20000000
        (stop_record false 11000000
          (stop_record false 10000000 initState))).1).isRecording = false
  ∧ (process_one_frame .allOk true 30000000 1
      (start_record .allOk 20000000 initState).1).isRecording = true := by
  decide

/-! ## Producer lemmas (claims C5, C6) -/

lemma runProducer_cons (k : ℕ) (t : ℤ) (ts : List ℤ) (st : PipelineState) :
    runProducer k (t :: ts) st = runProducer k ts (producer_capture k t st) := by
  simp [runProducer]

lemma runProducer_append_singleton (k : ℕ) (ts : List ℤ) (t : ℤ)
    (st : PipelineState) :
    runProducer k (ts ++ [t]) st = producer_capture k t (runProducer k ts st) := by
  simp [runProducer, List.foldl_append]

lemma producer_capture_sent_mono (k : ℕ) (t : ℤ) (st : PipelineState) :
    st.prod.countSentFrames ≤ (producer_capture k t st).prod.countSentFrames := by
  simp only [producer_capture]
  split_ifs <;> simp

/-- A forwarding capture with room appends the next sequence number. -/
lemma producer_capture_push (k : ℕ) (t : ℤ) (st : PipelineState)
    (hck : st.prod.countCycle + 1 = k) (hroom : ¬ st.prod.queue.length > 250) :
    producer_capture k t st =
      { st with prod :=
          { st.prod with
              countCycle := 0,
              countSentFrames := st.prod.countSentFrames + 1,
              queue := st.prod.queue
                ++ [(st.prod.countSentFrames + 1, t, st.cam.gpioActive)] } } := by
  simp [producer_capture, hck, hroom]

/-- A capture that is not the `k`-th of its cycle only advances the cycle
counter. -/
lemma producer_capture_skip (k : ℕ) (t : ℤ) (st : PipelineState)
    (hck : st.prod.countCycle + 1 ≠ k) :
    producer_capture k t st =
      { st with prod :=
          { st.prod with countCycle := st.prod.countCycle + 1 } } := by
  simp [producer_capture, hck]

lemma producer_capture_queue_mem (k : ℕ) (t : ℤ) (st : PipelineState) :
    ∀ e ∈ (producer_capture k t st).prod.queue,
      e ∈ st.prod.queue ∨ e.1 = st.prod.countSentFrames + 1 := by
  intro e he
  simp only [producer_capture] at he
  split_ifs at he <;>
    first
      | exact .inl (by simpa using he)
      | exact (by simpa using he :
            e ∈ st.prod.queue ∨
              e = (st.prod.countSentFrames + 1, t, st.cam.gpioActive)).elim
          Or.inl (fun h => Or.inr (by rw [h]))

lemma runProducer_queue_mem (k : ℕ) (ts : List ℤ) (st : PipelineState) :
    ∀ e ∈ (runProducer k ts st).prod.queue,
      e ∈ st.prod.queue ∨ st.prod.countSentFrames < e.1 := by
  induction ts generalizing st with
  | nil => intro e he; simp [runProducer] at he; exact .inl he
  | cons t ts ih =>
      intro e he
      rw [runProducer_cons] at he
      rcases ih (producer_capture k t st) e he with h | h
      · rcases producer_capture_queue_mem k t st e h with h' | h'
        · exact .inl h'
        · right; omega
      · right
        have := producer_capture_sent_mono k t st
        omega

/-! ## Claim C5: non-blocking push at capacity -/

/-- Claim C5: a push onto the in-process transport while it holds more than
250 items drops the frame on the spot — the queue and the whole session
state are unchanged while the sequence counter still advances (so the drop is
counted by the consumer's gap inference) — and the dropped sequence number is
never enqueued by any later capture (no retry).  For the cross-process ring
buffer, a push onto a full ring returns the `Full` error immediately with the
view and control queue unchanged, letting the producer apply the same drop
policy. -/
theorem c5_transport_drop :
    (∀ (k : ℕ) (t : ℤ) (st : PipelineState),
        st.prod.countCycle + 1 = k →
        250 < st.prod.queue.length →
        (producer_capture k t st).cam = st.cam ∧
        (producer_capture k t st).prod.queue = st.prod.queue ∧
        (producer_capture k t st).prod.countSentFrames
          = st.prod.countSentFrames + 1)
  ∧ (∀ (k : ℕ) (t : ℤ) (st : PipelineState) (ts : List ℤ),
        st.prod.countCycle + 1 = k →
        250 < st.prod.queue.length →
        (∀ e ∈ st.prod.queue, e.1 ≤ st.prod.countSentFrames) →
        ∀ e ∈ (runProducer k ts (producer_capture k t st)).prod.queue,
          e.1 ≠ st.prod.countSentFrames + 1)
  ∧ (∀ (s : ArrayQueueState) (v : ArrayView) (el : NpElement),
        s.view = some v → v.fits el = true →
        v.idxItem = s.readQueue.getLastD s.lastItem →
        (ArrayQueue_put s el).2 = .fullErr ∧
        (ArrayQueue_put s el).1.view = s.view ∧
        (ArrayQueue_put s el).1.queue = s.queue) := by
  refine ⟨?_, ?_, ?_⟩
  · intro k t st hc hfull
    simp [producer_capture, hc, hfull]
  · intro k t st ts hc hfull hbound e he
    have hstep : (producer_capture k t st).prod.queue = st.prod.queue ∧
        (producer_capture k t st).prod.countSentFrames
          = st.prod.countSentFrames + 1 := by
      simp [producer_capture, hc, hfull]
    rcases runProducer_queue_mem k ts (producer_capture k t st) e he with h | h
    · rw [hstep.1] at h
      have := hbound e h
      omega
    · rw [hstep.2] at h
      omega
  · intro s v el hv hfits hfull
    simp [ArrayQueue_put, hv, hfits, ArrayQueue_check_full, hfull]

set_option maxRecDepth 10000 in
/-- Witness for `c5_transport_drop` at a concrete at-capacity state. -/
theorem c5_transport_drop_witness :
    (let q := List.replicate 251 ((0 : ℤ), (0 : ℤ), false)
     let st : PipelineState :=
       ⟨initState, { countCycle := 2, countSentFrames := 251, queue := q,
                     lastDropWarning := 0 }⟩
     (producer_capture 3 99 st).cam = st.cam ∧
     (producer_capture 3 99 st).prod.queue = st.prod.queue ∧
     (producer_capture 3 99 st).prod.countSentFrames
       = st.prod.countSentFrames + 1) :=
  (c5_transport_drop.1 3 99
    ⟨initState, { countCycle := 2, countSentFrames := 251,
                  queue := List.replicate 251 ((0 : ℤ), (0 : ℤ), false),
                  lastDropWarning := 0 }⟩
    (by decide) (by decide))

/-! ## Claim C6: downsampling ratio -/

lemma succ_mod_shift (n k : ℕ) : (n + 1) % k = (n % k + 1) % k := by
  conv_lhs => rw [← Nat.mod_add_div n k, Nat.add_right_comm,
    Nat.add_mul_mod_self_left]

lemma mod_succ_eq_iff_dvd (n k : ℕ) (hk : 0 < k) :
    n % k + 1 = k ↔ k ∣ (n + 1) := by
  have hlt : n % k < k := Nat.mod_lt _ hk
  constructor
  · intro h
    have : (n + 1) % k = 0 := by
      rw [succ_mod_shift, h, Nat.mod_self]
    exact Nat.dvd_of_mod_eq_zero this
  · intro h
    have h0 : (n + 1) % k = 0 := Nat.mod_eq_zero_of_dvd h
    rw [succ_mod_shift] at h0
    rcases Nat.lt_or_ge (n % k + 1) k with hlt2 | hge
    · rw [Nat.mod_eq_of_lt hlt2] at h0
      omega
    · omega

lemma succ_mod_of_dvd (n k : ℕ) (hk : 0 < k) (h : k ∣ (n + 1)) :
    (n + 1) % k = 0 :=
  Nat.mod_eq_zero_of_dvd h

lemma succ_mod_of_not_dvd (n k : ℕ) (hk : 0 < k) (h : ¬ k ∣ (n + 1)) :
    (n + 1) % k = n % k + 1 := by
  have hlt : n % k < k := Nat.mod_lt _ hk
  have hne : n % k + 1 ≠ k := fun hc => h ((mod_succ_eq_iff_dvd n k hk).mp hc)
  rw [succ_mod_shift, Nat.mod_eq_of_lt (by omega)]

lemma seqList_length (m : ℕ) : (seqList m).length = m := by
  simp [seqList]

lemma seqList_succ (m : ℕ) :
    seqList (m + 1) = seqList m ++ [(m : ℤ) + 1] := by
  simp [seqList, List.range_succ]

/-- Core downsampling invariant: from a fresh producer, after `n` captures the
cycle counter is `n % k`, the forwarded-frame counter is `n / k`, the session
state is untouched, and the transport holds exactly the sequence numbers
`1, 2, ..., n / k` in order (no capture was dropped because the transport
stayed within its 251-item bound). -/
lemma runProducer_fresh (k : ℕ) (hk : 0 < k) (cam : CamState) :
    ∀ ts : List ℤ, ts.length ≤ 251 * k →
      (runProducer k ts ⟨cam, freshProducer⟩).cam = cam ∧
      (runProducer k ts ⟨cam, freshProducer⟩).prod.countCycle = ts.length % k ∧
      (runProducer k ts ⟨cam, freshProducer⟩).prod.countSentFrames
        = ((ts.length / k : ℕ) : ℤ) ∧
      (runProducer k ts ⟨cam, freshProducer⟩).prod.queue.map (fun e => e.1)
        = seqList (ts.length / k) := by
  intro ts
  induction ts using List.reverseRecOn with
  | nil =>
      intro _
      refine ⟨rfl, ?_, ?_, ?_⟩ <;>
        simp [runProducer, freshProducer, seqList]
  | append_singleton l t ih =>
      intro hlen
      rw [List.length_append, List.length_singleton] at hlen
      obtain ⟨hcam, hcyc, hsent, hq⟩ := ih (by omega)
      have hqlen : (runProducer k l ⟨cam, freshProducer⟩).prod.queue.length
          = l.length / k := by
        have h := congrArg List.length hq
        rwa [List.length_map, seqList_length] at h
      rw [runProducer_append_singleton]
      set st := runProducer k l ⟨cam, freshProducer⟩ with hst
      by_cases hdvd : k ∣ (l.length + 1)
      · have hck : st.prod.countCycle + 1 = k := by
          rw [hcyc]; exact (mod_succ_eq_iff_dvd _ _ hk).mpr hdvd
        have hroom : ¬ st.prod.queue.length > 250 := by
          rw [hqlen]
          have : l.length / k < 251 := by
            rw [Nat.div_lt_iff_lt_mul hk]; omega
          omega
        have hdiv : (l.length + 1) / k = l.length / k + 1 := by
          rw [Nat.succ_div, if_pos hdvd]
        have hmod : (l.length + 1) % k = 0 := succ_mod_of_dvd _ _ hk hdvd
        rw [producer_capture_push k t st hck hroom]
        refine ⟨hcam, ?_, ?_, ?_⟩
        · simp [List.length_append, hmod]
        · simp only [List.length_append, List.length_singleton, hdiv, hsent]
          push_cast
          ring
        · simp only [List.map_append, hq, hsent, List.length_append,
            List.length_singleton, hdiv, seqList_succ, List.map_cons,
            List.map_nil]
      · have hck : ¬ (st.prod.countCycle + 1 = k) := by
          rw [hcyc]
          exact fun hc => hdvd ((mod_succ_eq_iff_dvd _ _ hk).mp hc)
        have hdiv : (l.length + 1) / k = l.length / k := by
          rw [Nat.succ_div, if_neg hdvd]; omega
        have hmod : (l.length + 1) % k = l.length % k + 1 :=
          succ_mod_of_not_dvd _ _ hk hdvd
        rw [producer_capture_skip k t st hck]
        refine ⟨hcam, ?_, ?_, ?_⟩
        · simp [List.length_append, hmod, hcyc]
        · simp [List.length_append, hdiv, hsent]
        · simp only [List.length_append, List.length_singleton, hdiv, hq]

/-- Claim C6: with the downsampling interval `k = ceil(native_rate /
target_rate)`, a fresh producer forwards exactly every `k`-th captured frame,
tagged with strictly increasing sequence numbers `1..n/k`; captures that are
not the `k`-th of their cycle never push, and the `k`-th always pushes when
the transport has room.  For `native_rate = 30`, `target_rate = 10` the
interval is 3: exactly 1 of every 3 captured frames is forwarded. -/
theorem c6_downsampling (native target : ℚ) (k : ℕ) (cam : CamState)
    (ts : List ℤ) (hk : count_interval native target = (k : ℤ))
    (hk1 : 1 ≤ k) (hbound : ts.length ≤ 251 * k) :
    (runProducer k ts ⟨cam, freshProducer⟩).cam = cam
  ∧ (runProducer k ts ⟨cam, freshProducer⟩).prod.countSentFrames
      = ((ts.length / k : ℕ) : ℤ)
  ∧ (runProducer k ts ⟨cam, freshProducer⟩).prod.queue.map (fun e => e.1)
      = seqList (ts.length / k)
  ∧ List.Chain' (· < ·)
      ((runProducer k ts ⟨cam, freshProducer⟩).prod.queue.map (fun e => e.1))
  ∧ (∀ (t : ℤ) (st : PipelineState), st.prod.countCycle + 1 ≠ k →
      (producer_capture k t st).prod.queue = st.prod.queue ∧
      (producer_capture k t st).prod.countSentFrames
        = st.prod.countSentFrames)
  ∧ (∀ (t : ℤ) (st : PipelineState), st.prod.countCycle + 1 = k →
      st.prod.queue.length ≤ 250 →
      (producer_capture k t st).prod.queue
        = st.prod.queue ++ [(st.prod.countSentFrames + 1, t, st.cam.gpioActive)])
  ∧ count_interval 30 10 = 3 := by
  obtain ⟨hcam, hcyc, hsent, hq⟩ :=
    runProducer_fresh k (by omega) cam ts hbound
  refine ⟨hcam, hsent, hq, ?_, ?_, ?_, ?_⟩
  · rw [hq, seqList, List.chain'_iff_pairwise, List.pairwise_map]
    exact (List.pairwise_lt_range _).imp (by intro a b h; omega)
  · intro t st hck
    simp [producer_capture, hck]
  · intro t st hck hroom
    have : ¬ st.prod.queue.length > 250 := by omega
    simp [producer_capture, hck, this]
  · show (⌈(30 : ℚ) / 10⌉ : ℤ) = 3
    norm_num

/-- The downsampling interval for a 30fps camera recorded at 10fps is 3
(helper for the claim C6 witness). -/
lemma count_interval_30_10 : count_interval 30 10 = ((3 : ℕ) : ℤ) := by
  show (⌈(30 : ℚ) / 10⌉ : ℤ) = ((3 : ℕ) : ℤ)
  norm_num

/-- Witness for `c6_downsampling`: seven captures at 30fps native, 10fps
target forward exactly the sequence numbers 1 and 2. -/
theorem c6_downsampling_witness :
    (count_interval 30 10 = ((3 : ℕ) : ℤ) ∧ (1 : ℕ) ≤ 3 ∧
      ([10, 20, 30, 40, 50, 60, 70] : List ℤ).length ≤ 251 * 3)
  ∧ (runProducer 3 [10, 20, 30, 40, 50, 60, 70]
       ⟨initState, freshProducer⟩).prod.countSentFrames
      = ((([10, 20, 30, 40, 50, 60, 70] : List ℤ).length / 3 : ℕ) : ℤ)
  ∧ (runProducer 3 [10, 20, 30, 40, 50, 60, 70]
       ⟨initState, freshProducer⟩).prod.queue.map (fun e => e.1)
      = seqList (([10, 20, 30, 40, 50, 60, 70] : List ℤ).length / 3) :=
  ⟨⟨count_interval_30_10, by decide, by decide⟩,
   (c6_downsampling 30 10 3 initState [10, 20, 30, 40, 50, 60, 70]
      count_interval_30_10 (by decide) (by decide)).2.1,
   (c6_downsampling 30 10 3 initState [10, 20, 30, 40, 50, 60, 70]
      count_interval_30_10 (by decide) (by decide)).2.2.1⟩

/-! ## Claim C3: frame-counter invariant -/

/-- One delivered frame in a healthy recording session: no pending commands,
no stop deadline, open sinks, successful writes, non-negative elapsed time.
The counters advance by `gap`/`gap-1`/`1` and one row is appended to the
frame log. -/
lemma process_one_frame_healthy (o : StartOutcome) (t gap : ℤ) (s : CamState)
    (hrec : s.isRecording = true) (hpend : s.pending = .Nothing)
    (hstop : s.pendingStopRecordTime = 0) (hcam : s.camOpen = true)
    (hfid : s.fid = .openF) (hwr : s.writer = .createdW true)
    (htimer : s.pendingStartTimer = 0)
    (hte : 0 ≤ t - s.startRecordingTime) :
    process_one_frame o true t gap s =
      { s with
          lastFrameReceivedElapsedTime := t - s.startRecordingTime,
          framesReceived := s.framesReceived + gap,
          droppedRecordingFrames :=
            if gap > 1 then s.droppedRecordingFrames + (gap - 1)
            else s.droppedRecordingFrames,
          framesRecorded := s.framesRecorded + 1,
          frameRows := s.frameRows
            ++ [(s.framesReceived + gap, t - s.startRecordingTime)],
          lastFrameWritten := s.framesReceived + gap } := by
  simp [process_one_frame, pof_apply_pending, pof_counters, pof_timer_tick,
        pof_write, hrec, hpend, hstop, hcam, hfid, hwr, htimer, hte]

/-- `C3Inv` is preserved by one consumer iteration whenever the delivered
sequence number advances and the frame is not older than the session. -/
lemma consumer_step_inv (o : StartOutcome) (T count : ℤ) (cs : ConsState)
    (d : Delivery) (hinv : C3Inv T count cs)
    (hseq : cs.prevFramesReceived < d.seq) (ht : T ≤ d.t) :
    C3Inv T (count + 1) (consumer_step o true cs d) := by
  obtain ⟨h1, h2, h3, h4, h5, h6, h7, h8, h9, h10, h11, h12⟩ := hinv
  simp only [consumer_step]
  rw [process_one_frame_healthy o d.t (d.seq - cs.prevFramesReceived) cs.cam
      h5 h6 h7 h8 h9 h10 h11 (by omega)]
  unfold C3Inv
  refine ⟨by simp; omega, ?_, by simp; omega, ?_, by simp [h5], by simp [h6],
          by simp [h7], by simp [h8], by simp [h9], by simp [h10],
          by simp [h11], by simp [h12]⟩
  · simp only []
    show (if d.seq - cs.prevFramesReceived > 1 then
            cs.cam.droppedRecordingFrames + (d.seq - cs.prevFramesReceived - 1)
          else cs.cam.droppedRecordingFrames) + (cs.cam.framesRecorded + 1)
        = cs.cam.framesReceived + (d.seq - cs.prevFramesReceived)
    split_ifs <;> omega
  · simp only []
    show 0 ≤ (if d.seq - cs.prevFramesReceived > 1 then
            cs.cam.droppedRecordingFrames + (d.seq - cs.prevFramesReceived - 1)
          else cs.cam.droppedRecordingFrames)
    split_ifs <;> omega

/-- `C3Inv` is preserved by a whole run of the consumer loop. -/
lemma runConsumer_inv (o : StartOutcome) (T : ℤ) :
    ∀ (ds : List Delivery) (count : ℤ) (cs : ConsState),
      C3Inv T count cs →
      List.Chain' (· < ·) (cs.prevFramesReceived :: ds.map (fun d => d.seq)) →
      (∀ d ∈ ds, T ≤ d.t) →
      C3Inv T (count + ds.length) (runConsumer o true cs ds) := by
  intro ds
  induction ds with
  | nil => intro count cs hinv _ _; simpa [runConsumer] using hinv
  | cons d ds ih =>
      intro count cs hinv hchain ht
      rw [List.map_cons, List.chain'_cons] at hchain
      have hstep := consumer_step_inv o T count cs d hinv hchain.1
        (ht d (by simp))
      have hprev : (consumer_step o true cs d).prevFramesReceived = d.seq := rfl
      have hrun := ih (count + 1) (consumer_step o true cs d) hstep
        (by rw [hprev]; exact hchain.2)
        (fun e he => ht e (by simp [he]))
      show C3Inv T (count + ((ds.length : ℤ) + 1))
        (runConsumer o true (consumer_step o true cs d) ds)
      have : count + ((ds.length : ℤ) + 1) = (count + 1) + ds.length := by ring
      rw [this]
      exact hrun

/-- Claim C3: in a session started by `start_record` with no sink failures,
after every delivered frame the invariant `frames_written ≤ frames_received`
and `dropped + frames_written = frames_received` holds; moreover
`frames_received` equals the last delivered sequence number and
`frames_written` equals the number of delivered frames, so the dropped count
is computed exactly from the consecutive sequence-number gaps. -/
theorem c3_counter_invariant (T : ℤ) (ds : List Delivery)
    (hchain : List.Chain' (· < ·) ((0 : ℤ) :: ds.map (fun d => d.seq)))
    (ht : ∀ d ∈ ds, T ≤ d.t) (n : ℕ) :
    (runConsumer .allOk true ⟨(start_record .allOk T initState).1, 0⟩
        (ds.take n)).cam.framesRecorded
      ≤ (runConsumer .allOk true ⟨(start_record .allOk T initState).1, 0⟩
        (ds.take n)).cam.framesReceived
  ∧ (runConsumer .allOk true ⟨(start_record .allOk T initState).1, 0⟩
        (ds.take n)).cam.droppedRecordingFrames
      + (runConsumer .allOk true ⟨(start_record .allOk T initState).1, 0⟩
        (ds.take n)).cam.framesRecorded
      = (runConsumer .allOk true ⟨(start_record .allOk T initState).1, 0⟩
        (ds.take n)).cam.framesReceived
  ∧ (runConsumer .allOk true ⟨(start_record .allOk T initState).1, 0⟩
        (ds.take n)).cam.framesReceived
      = (runConsumer .allOk true ⟨(start_record .allOk T initState).1, 0⟩
        (ds.take n)).prevFramesReceived
  ∧ (runConsumer .allOk true ⟨(start_record .allOk T initState).1, 0⟩
        (ds.take n)).cam.framesRecorded = ((ds.take n).length : ℤ) := by
  have hinv0 : C3Inv T 0 ⟨(start_record .allOk T initState).1, 0⟩ := by
    unfold C3Inv
    refine ⟨?_, ?_, ?_, ?_, ?_, ?_, ?_, ?_, ?_, ?_, ?_, ?_⟩ <;>
      simp [start_record, StartOutcome.allOk, initState]
  have hchainT : List.Chain' (· < ·)
      ((0 : ℤ) :: (ds.take n).map (fun d => d.seq)) := by
    have h := List.Chain'.take hchain (n + 1)
    simpa [List.map_take] using h
  have htT : ∀ d ∈ ds.take n, T ≤ d.t :=
    fun d hd => ht d (List.mem_of_mem_take hd)
  have hrun := runConsumer_inv .allOk T (ds.take n) 0
    ⟨(start_record .allOk T initState).1, 0⟩ hinv0 hchainT htT
  obtain ⟨h1, h2, h3, h4, _⟩ := hrun
  refine ⟨by omega, by omega, h1, by omega⟩

/-- Witness for `c3_counter_invariant`: three deliveries with one gap (a
dropped frame between sequence numbers 2 and 4). -/
theorem c3_counter_invariant_witness :
    (List.Chain' (· < ·)
        ((0 : ℤ) :: ([⟨1, 100, false⟩, ⟨2, 200, false⟩,
          ⟨4, 300, false⟩] : List Delivery).map (fun d => d.seq))
      ∧ (∀ d ∈ ([⟨1, 100, false⟩, ⟨2, 200, false⟩,
          ⟨4, 300, false⟩] : List Delivery), (50 : ℤ) ≤ d.t))
  ∧ ((runConsumer .allOk true ⟨(start_record .allOk 50 initState).1, 0⟩
        (([⟨1, 100, false⟩, ⟨2, 200, false⟩,
          ⟨4, 300, false⟩] : List Delivery).take 3)).cam.framesRecorded
      ≤ (runConsumer .allOk true ⟨(start_record .allOk 50 initState).1, 0⟩
        (([⟨1, 100, false⟩, ⟨2, 200, false⟩,
          ⟨4, 300, false⟩] : List Delivery).take 3)).cam.framesReceived
  ∧ (runConsumer .allOk true ⟨(start_record .allOk 50 initState).1, 0⟩
        (([⟨1, 100, false⟩, ⟨2, 200, false⟩,
          ⟨4, 300, false⟩] : List Delivery).take 3)).cam.droppedRecordingFrames
      + (runConsumer .allOk true ⟨(start_record .allOk 50 initState).1, 0⟩
        (([⟨1, 100, false⟩, ⟨2, 200, false⟩,
          ⟨4, 300, false⟩] : List Delivery).take 3)).cam.framesRecorded
      = (runConsumer .allOk true ⟨(start_record .allOk 50 initState).1, 0⟩
        (([⟨1, 100, false⟩, ⟨2, 200, false⟩,
          ⟨4, 300, false⟩] : List Delivery).take 3)).cam.framesReceived
  ∧ (runConsumer .allOk true ⟨(start_record .allOk 50 initState).1, 0⟩
        (([⟨1, 100, false⟩, ⟨2, 200, false⟩,
          ⟨4, 300, false⟩] : List Delivery).take 3)).cam.framesReceived
      = (runConsumer .allOk true ⟨(start_record .allOk 50 initState).1, 0⟩
        (([⟨1, 100, false⟩, ⟨2, 200, false⟩,
          ⟨4, 300, false⟩] : List Delivery).take 3)).prevFramesReceived
  ∧ (runConsumer .allOk true ⟨(start_record .allOk 50 initState).1, 0⟩
        (([⟨1, 100, false⟩, ⟨2, 200, false⟩,
          ⟨4, 300, false⟩] : List Delivery).take 3)).cam.framesRecorded
      = ((([⟨1, 100, false⟩, ⟨2, 200, false⟩,
          ⟨4, 300, false⟩] : List Delivery).take 3).length : ℤ)) :=
  ⟨⟨by simp [List.chain'_cons], by decide⟩,
   c3_counter_invariant 50
     [⟨1, 100, false⟩, ⟨2, 200, false⟩, ⟨4, 300, false⟩]
     (by simp [List.chain'_cons]) (by decide) 3⟩

/-! ## Claim C2: binary-ID round trip -/

lemma fireReady_nil (o : StartOutcome) (t : ℤ) (s : CamState)
    (h : s.pendingFires = []) : fireReady o t s = s := by
  cases s
  simp_all [fireReady]

lemma runEdges_cons (o : StartOutcome) (s : CamState) (e : Edge)
    (es : List Edge) : runEdges o s (e :: es) = runEdges o (procEdge o s e) es :=
  rfl

lemma runEdges_append (o : StartOutcome) (s : CamState) (l1 l2 : List Edge) :
    runEdges o s (l1 ++ l2) = runEdges o (runEdges o s l1) l2 := by
  simp [runEdges, List.foldl_append]

/-- Rising edge inside a bit train: the pause is below every band, so only
the rise time and the live flag change. -/
lemma rising_edge_binary_stay (t' : ℤ) (s : CamState)
    (hmode : s.ttlMode = .Binary)
    (hp1 : ¬ (t' - s.lastFall > 100000))
    (hp2 : ¬ (150000 < t' - s.lastFall ∧ t' - s.lastFall < 500000))
    (hp3 : ¬ (t' - s.lastFall ≥ 250000)) :
    GPIO_rising_edge t' s = { s with lastRise := t', gpioActive := true } := by
  simp [GPIO_rising_edge, hmode, hp1, hp2, hp3]

/-- Falling edge of one bit pulse in Binary mode. -/
lemma falling_edge_binary_bit (t' : ℤ) (s : CamState)
    (hmode : s.ttlMode = .Binary)
    (hrise : ¬ s.lastRise < 0) (hdeb : ¬ (t' - s.lastRise < 5000)) :
    GPIO_falling_edge t' s =
      if BINARY_BIT_PULSE_THRESHOLD < t' - s.lastRise then
        { s with lastFall := t', gpioActive := false,
                 ttlBinaryBits := s.ttlBinaryBits + 1,
                 ttlTmpID := s.ttlTmpID * 2 + 1,
                 ttlChecksum := 1 - s.ttlChecksum }
      else
        { s with lastFall := t', gpioActive := false,
                 ttlBinaryBits := s.ttlBinaryBits + 1,
                 ttlTmpID := s.ttlTmpID * 2 } := by
  simp only [GPIO_falling_edge, hrise, if_false, hdeb, hmode]

/-- Running the decoder over a bit train from a Binary-mode state matches the
closed form `binSpec`. -/
lemma runEdges_bitEdges (o : StartOutcome) :
    ∀ (bs : List Bool) (t : ℤ) (s : CamState),
      s.ttlMode = .Binary → s.pendingFires = [] → s.lastFall = t → 0 ≤ t →
      runEdges o s (bitEdges t bs) = binSpec t bs s := by
  intro bs
  induction bs with
  | nil => intro t s _ _ _ _; rfl
  | cons b rest ih =>
      intro t s hmode hfires hfall ht
      rw [bitEdges, runEdges_cons, runEdges_cons]
      rw [show procEdge o s (.rise (t + 50000))
            = GPIO_rising_edge (t + 50000) (fireReady o (t + 50000) s) from rfl,
          fireReady_nil o _ s hfires,
          rising_edge_binary_stay _ s hmode (by omega)
            (by rw [hfall]; omega) (by rw [hfall]; omega)]
      set s1 : CamState := { s with lastRise := t + 50000, gpioActive := true }
        with hs1
      rw [show procEdge o s1 (.fall (t + 50000 + bitWidth b))
            = GPIO_falling_edge (t + 50000 + bitWidth b)
                (fireReady o (t + 50000 + bitWidth b) s1) from rfl,
          fireReady_nil o _ s1 (by rw [hs1]; exact hfires),
          falling_edge_binary_bit _ s1 (by rw [hs1]; exact hmode)
            (by rw [hs1]; simp; omega)
            (by rw [hs1]; simp [bitWidth]; cases b <;> simp <;> omega)]
      rw [binSpec]
      cases b
      · rw [if_neg (by rw [hs1]; simp [bitWidth, BINARY_BIT_PULSE_THRESHOLD])]
        rw [ih (t + 50000 + bitWidth false) _
            (by rw [hs1]; exact hmode) (by rw [hs1]; exact hfires)
            (by simp) (by simp [bitWidth]; omega)]
        simp [bitWidth]
      · rw [if_pos (by rw [hs1]; simp [bitWidth, BINARY_BIT_PULSE_THRESHOLD])]
        rw [ih (t + 50000 + bitWidth true) _
            (by rw [hs1]; exact hmode) (by rw [hs1]; exact hfires)
            (by simp) (by simp [bitWidth]; omega)]
        simp [bitWidth]

lemma binSpec_ttlMode : ∀ (bs : List Bool) (t : ℤ) (s : CamState),
    (binSpec t bs s).ttlMode = s.ttlMode := by
  intro bs
  induction bs with
  | nil => intro t s; rfl
  | cons b rest ih => intro t s; rw [binSpec, ih]

lemma binSpec_pendingFires : ∀ (bs : List Bool) (t : ℤ) (s : CamState),
    (binSpec t bs s).pendingFires = s.pendingFires := by
  intro bs
  induction bs with
  | nil => intro t s; rfl
  | cons b rest ih => intro t s; rw [binSpec, ih]

lemma binSpec_bits : ∀ (bs : List Bool) (t : ℤ) (s : CamState),
    (binSpec t bs s).ttlBinaryBits = s.ttlBinaryBits + bs.length := by
  intro bs
  induction bs with
  | nil => intro t s; simp [binSpec]
  | cons b rest ih =>
      intro t s
      rw [binSpec, ih]
      simp
      omega

lemma binSpec_tmpID : ∀ (bs : List Bool) (t : ℤ) (s : CamState),
    (binSpec t bs s).ttlTmpID
      = bs.foldl (fun a b => a * 2 + (if b then 1 else 0)) s.ttlTmpID := by
  intro bs
  induction bs with
  | nil => intro t s; rfl
  | cons b rest ih =>
      intro t s
      rw [binSpec, ih, List.foldl_cons]

lemma parityFold_cons (c : ℕ) (b : Bool) (rest : List Bool) :
    parityFold c (b :: rest) = parityFold (if b then 1 - c else c) rest := rfl

lemma binSpec_checksum : ∀ (bs : List Bool) (t : ℤ) (s : CamState),
    (binSpec t bs s).ttlChecksum = parityFold s.ttlChecksum bs := by
  intro bs
  induction bs with
  | nil => intro t s; rfl
  | cons b rest ih =>
      intro t s
      rw [binSpec, ih, parityFold_cons]

lemma binSpec_lastFall : ∀ (bs : List Bool) (t : ℤ) (s : CamState),
    s.lastFall = t → (binSpec t bs s).lastFall = bitEdgesEnd t bs := by
  intro bs
  induction bs with
  | nil => intro t s h; rw [binSpec, bitEdgesEnd, h]
  | cons b rest ih =>
      intro t s h
      rw [binSpec, bitEdgesEnd, ih]
      rfl

lemma bitEdgesEnd_ge : ∀ (bs : List Bool) (t : ℤ), t ≤ bitEdgesEnd t bs := by
  intro bs
  induction bs with
  | nil => intro t; simp [bitEdgesEnd]
  | cons b rest ih =>
      intro t
      rw [bitEdgesEnd]
      have h := ih (t + 50000 + bitWidth b)
      have hw : 0 < bitWidth b := by cases b <;> simp [bitWidth]
      omega

lemma msbBits_length : ∀ (n v : ℕ), (msbBits n v).length = n := by
  intro n
  induction n with
  | zero => intro v; rfl
  | succ n ih => intro v; rw [msbBits]; simp [ih]

lemma flipBit_length : ∀ (bs : List Bool) (i : ℕ),
    (flipBit bs i).length = bs.length := by
  intro bs
  induction bs with
  | nil => intro i; rfl
  | cons b rest ih =>
      intro i
      cases i with
      | zero => rfl
      | succ i => rw [flipBit]; simp [ih]

/-- Shifting an MSB-first accumulator through the bits of `v` recovers
`v mod 2^n`. -/
lemma foldl_msbBits : ∀ (n v a : ℕ),
    (msbBits n v).foldl (fun a b => a * 2 + (if b then 1 else 0)) a
      = a * 2 ^ n + v % 2 ^ n := by
  intro n
  induction n with
  | zero => intro v a; simp [msbBits, Nat.mod_one]
  | succ n ih =>
      intro v a
      rw [msbBits, List.foldl_cons, ih]
      have hd : (if (v / 2 ^ n % 2 == 1) = true then 1 else 0)
          = v / 2 ^ n % 2 := by
        rcases Nat.mod_two_eq_zero_or_one (v / 2 ^ n) with h | h <;> simp [h]
      rw [hd]
      have hsplit : v % 2 ^ (n + 1) = v / 2 ^ n % 2 * 2 ^ n + v % 2 ^ n := by
        rw [pow_succ, Nat.mod_mul]; ring
      rw [hsplit, pow_succ]
      ring

lemma parityFold_le_one : ∀ (bs : List Bool) (c : ℕ), c ≤ 1 →
    parityFold c bs ≤ 1 := by
  intro bs
  induction bs with
  | nil => intro c h; simpa [parityFold] using h
  | cons b rest ih =>
      intro c h
      rw [parityFold, List.foldl_cons]
      exact ih _ (by cases b <;> simp <;> omega)

lemma parityFold_one_sub : ∀ (bs : List Bool) (c : ℕ), c ≤ 1 →
    parityFold (1 - c) bs = 1 - parityFold c bs := by
  intro bs
  induction bs with
  | nil => intro c h; rfl
  | cons b rest ih =>
      intro c h
      rw [parityFold_cons, parityFold_cons]
      cases b
      · simpa using ih c h
      · rw [if_pos rfl, if_pos rfl, (by omega : 1 - (1 - c) = c), ih c h]
        have hle := parityFold_le_one rest c h
        omega

/-- Flipping one bit flips the accumulated parity. -/
lemma parityFold_flip : ∀ (bs : List Bool) (i : ℕ) (c : ℕ),
    i < bs.length → c ≤ 1 →
    parityFold c (flipBit bs i) = 1 - parityFold c bs := by
  intro bs
  induction bs with
  | nil => intro i c h _; simp at h
  | cons b rest ih =>
      intro i c hi hc
      cases i with
      | zero =>
          rw [flipBit, parityFold_cons, parityFold_cons]
          cases b
          · simpa using parityFold_one_sub rest c hc
          · rw [show (if (!true) = true then 1 - c else c) = c by simp,
                show (if true = true then 1 - c else c) = 1 - c by simp,
                parityFold_one_sub rest c hc]
            have hle := parityFold_le_one rest c hc
            omega
      | succ i =>
          rw [flipBit, parityFold_cons, parityFold_cons]
          cases b
          · simp only [if_neg (by simp : ¬ (false = true))]
            exact ih i c (by simpa using hi) hc
          · simp only [if_pos rfl]
            exact ih i (1 - c) (by simpa using hi) (by omega)

/-- The end-of-transmission rising edge: a 0.2s pause in Binary mode with all
16 bits received switches the decoder to Checksum mode. -/
lemma rising_edge_to_checksum (t' : ℤ) (s : CamState)
    (hmode : s.ttlMode = .Binary) (hbits : s.ttlBinaryBits = 16)
    (hp1 : t' - s.lastFall > 100000)
    (hp2 : 150000 < t' - s.lastFall) (hp3 : t' - s.lastFall < 500000) :
    GPIO_rising_edge t' s =
      { s with lastRise := t', gpioActive := true, numConsecTTLs := 0,
               ttlMode := .Checksum } := by
  simp [GPIO_rising_edge, hmode, hbits, hp1, hp2, hp3]

/-- The checksum falling edge with a 0-bit width (50ms). -/
lemma falling_edge_checksum_bit0 (t' : ℤ) (s : CamState)
    (hmode : s.ttlMode = .Checksum) (hrise : ¬ s.lastRise < 0)
    (hw : t' - s.lastRise = 50000) :
    GPIO_falling_edge t' s =
      if s.ttlChecksum = 0 then
        { s with lastFall := t', gpioActive := false,
                 animalID := some (.idNum s.ttlTmpID), ttlMode := .Normal }
      else
        { s with lastFall := t', gpioActive := false,
                 animalID := some .checksumFail, ttlMode := .Normal } := by
  have hdeb : ¬ (t' - s.lastRise < 5000) := by omega
  have h1 : t' - s.lastRise < BINARY_BIT_PULSE_THRESHOLD := by
    rw [BINARY_BIT_PULSE_THRESHOLD]; omega
  simp only [GPIO_falling_edge, hrise, if_false, hdeb, hmode, h1, if_true]

/-- The checksum falling edge with a 1-bit width (150ms). -/
lemma falling_edge_checksum_bit1 (t' : ℤ) (s : CamState)
    (hmode : s.ttlMode = .Checksum) (hrise : ¬ s.lastRise < 0)
    (hw : t' - s.lastRise = 150000) :
    GPIO_falling_edge t' s =
      if s.ttlChecksum = 1 then
        { s with lastFall := t', gpioActive := false,
                 animalID := some (.idNum s.ttlTmpID), ttlMode := .Normal }
      else
        { s with lastFall := t', gpioActive := false,
                 animalID := some .checksumFail, ttlMode := .Normal } := by
  have hdeb : ¬ (t' - s.lastRise < 5000) := by omega
  have h1 : ¬ (t' - s.lastRise < BINARY_BIT_PULSE_THRESHOLD) := by
    rw [BINARY_BIT_PULSE_THRESHOLD]; omega
  have h2 : t' - s.lastRise < BINARY_BIT_PULSE_THRESHOLD * 3 := by
    rw [BINARY_BIT_PULSE_THRESHOLD]; omega
  simp only [GPIO_falling_edge, hrise, if_false, hdeb, hmode, h1, h2, if_true]

lemma runEdges_nil (o : StartOutcome) (s : CamState) : runEdges o s [] = s :=
  rfl

/-- Feeding a 16-bit train and a checksum pulse of parity `par` to a decoder
in fresh Binary mode always ends in Normal mode, with the identifier accepted
exactly when the accumulated parity matches the checksum bit. -/
lemma run_transmission_result (o : StartOutcome) (t0 : ℤ) (ht0 : 0 ≤ t0)
    (bs : List Bool) (hlen : bs.length = 16) (par : Bool) :
    (runEdges o (binaryEntryState t0)
        (bitEdges t0 bs ++ checksumEdges (bitEdgesEnd t0 bs) par)).ttlMode
      = .Normal
  ∧ (runEdges o (binaryEntryState t0)
        (bitEdges t0 bs ++ checksumEdges (bitEdgesEnd t0 bs) par)).animalID
      = (if parityFold 0 bs = (if par then 1 else 0)
         then some (.idNum
            (bs.foldl (fun a b => a * 2 + (if b then 1 else 0)) 0))
         else some .checksumFail) := by
  have hrun : runEdges o (binaryEntryState t0) (bitEdges t0 bs)
      = binSpec t0 bs (binaryEntryState t0) :=
    runEdges_bitEdges o bs t0 _ rfl rfl rfl ht0
  set sB := binSpec t0 bs (binaryEntryState t0) with hsB
  have hMode : sB.ttlMode = .Binary := by
    rw [hsB, binSpec_ttlMode]; rfl
  have hFires : sB.pendingFires = [] := by
    rw [hsB, binSpec_pendingFires]; rfl
  have hFall : sB.lastFall = bitEdgesEnd t0 bs := by
    rw [hsB]; exact binSpec_lastFall bs t0 _ rfl
  have hBits : sB.ttlBinaryBits = 16 := by
    rw [hsB, binSpec_bits]
    show 0 + bs.length = 16
    omega
  have hCk : sB.ttlChecksum = parityFold 0 bs := by
    rw [hsB, binSpec_checksum]; rfl
  have hID : sB.ttlTmpID
      = bs.foldl (fun a b => a * 2 + (if b then 1 else 0)) 0 := by
    rw [hsB, binSpec_tmpID]; rfl
  have he : t0 ≤ bitEdgesEnd t0 bs := bitEdgesEnd_ge bs t0
  rw [runEdges_append, hrun, checksumEdges, runEdges_cons, runEdges_cons,
      runEdges_nil]
  rw [show procEdge o sB (.rise (bitEdgesEnd t0 bs + 200000))
        = GPIO_rising_edge (bitEdgesEnd t0 bs + 200000)
            (fireReady o (bitEdgesEnd t0 bs + 200000) sB) from rfl,
      fireReady_nil o _ sB hFires,
      rising_edge_to_checksum _ sB hMode hBits
        (by rw [hFall]; omega) (by rw [hFall]; omega) (by rw [hFall]; omega)]
  set sC : CamState :=
    { sB with lastRise := bitEdgesEnd t0 bs + 200000, gpioActive := true,
              numConsecTTLs := 0, ttlMode := TTLType.Checksum } with hsC
  have hsCMode : sC.ttlMode = .Checksum := rfl
  have hsCRise : ¬ sC.lastRise < 0 := by
    rw [hsC]
    simp
    omega
  have hsCCk : sC.ttlChecksum = parityFold 0 bs := by
    rw [hsC]
    simpa using hCk
  have hsCID : sC.ttlTmpID
      = bs.foldl (fun a b => a * 2 + (if b then 1 else 0)) 0 := by
    rw [hsC]
    simpa using hID
  rw [show procEdge o sC (.fall (bitEdgesEnd t0 bs + 200000 + bitWidth par))
        = GPIO_falling_edge (bitEdgesEnd t0 bs + 200000 + bitWidth par)
            (fireReady o (bitEdgesEnd t0 bs + 200000 + bitWidth par) sC)
        from rfl,
      fireReady_nil o _ sC (by rw [hsC]; simpa using hFires)]
  cases par
  · rw [falling_edge_checksum_bit0 _ sC hsCMode hsCRise
        (by rw [hsC]; simp [bitWidth])]
    constructor
    · split_ifs <;> rfl
    · by_cases h : parityFold 0 bs = 0
      · rw [if_pos (show sC.ttlChecksum = 0 by rw [hsCCk]; exact h),
            if_pos (by simpa using h)]
        show some (AnimalID.idNum sC.ttlTmpID) = _
        rw [hsCID]
      · rw [if_neg (show ¬ sC.ttlChecksum = 0 by rw [hsCCk]; exact h),
            if_neg (by simpa using h)]
  · rw [falling_edge_checksum_bit1 _ sC hsCMode hsCRise
        (by rw [hsC]; simp [bitWidth])]
    constructor
    · split_ifs <;> rfl
    · by_cases h : parityFold 0 bs = 1
      · rw [if_pos (show sC.ttlChecksum = 1 by rw [hsCCk]; exact h),
            if_pos (by simpa using h)]
        show some (AnimalID.idNum sC.ttlTmpID) = _
        rw [hsCID]
      · rw [if_neg (show ¬ sC.ttlChecksum = 1 by rw [hsCCk]; exact h),
            if_neg (by simpa using h)]

/-- Claim C2: encoding any 16-bit value `V` MSB-first as pulse widths with
the correct parity checksum and feeding the edges to a decoder in Binary
mode yields the identifier `V`; corrupting any single bit's width (checksum
pulse unchanged) yields a checksum failure; in every case the decoder is
back in Normal mode after the checksum falling edge. -/
theorem c2_binary_roundtrip (V : ℕ) (hV : V < 2 ^ 16) (t0 : ℤ)
    (ht0 : 0 ≤ t0) :
    ((runEdges .allOk (binaryEntryState t0)
        (transmission t0 (msbBits 16 V))).animalID = some (.idNum V)
      ∧ (runEdges .allOk (binaryEntryState t0)
        (transmission t0 (msbBits 16 V))).ttlMode = .Normal)
  ∧ (∀ i, i < 16 →
      (runEdges .allOk (binaryEntryState t0)
        (corruptTransmission t0 (msbBits 16 V) i)).animalID
          = some .checksumFail
      ∧ (runEdges .allOk (binaryEntryState t0)
        (corruptTransmission t0 (msbBits 16 V) i)).ttlMode = .Normal) := by
  have hlen : (msbBits 16 V).length = 16 := msbBits_length 16 V
  have hple : parityFold 0 (msbBits 16 V) ≤ 1 :=
    parityFold_le_one _ 0 (by omega)
  have hfold : (msbBits 16 V).foldl
      (fun a b => a * 2 + (if b then 1 else 0)) 0 = V := by
    rw [foldl_msbBits]
    simpa using Nat.mod_eq_of_lt hV
  constructor
  · have hres := run_transmission_result .allOk t0 ht0 (msbBits 16 V) hlen
      (parityFold 0 (msbBits 16 V) == 1)
    rw [transmission]
    refine ⟨?_, hres.1⟩
    rw [hres.2, if_pos, hfold]
    rcases (by omega : parityFold 0 (msbBits 16 V) = 0
        ∨ parityFold 0 (msbBits 16 V) = 1) with h | h <;> simp [h]
  · intro i hi
    have hlen' : (flipBit (msbBits 16 V) i).length = 16 := by
      rw [flipBit_length, hlen]
    have hres := run_transmission_result .allOk t0 ht0
      (flipBit (msbBits 16 V) i) hlen' (parityFold 0 (msbBits 16 V) == 1)
    rw [corruptTransmission]
    refine ⟨?_, hres.1⟩
    rw [hres.2, if_neg]
    rw [parityFold_flip _ i 0 (by omega) (by omega)]
    rcases (by omega : parityFold 0 (msbBits 16 V) = 0
        ∨ parityFold 0 (msbBits 16 V) = 1) with h | h <;> simp [h]

/-- Witness for `c2_binary_roundtrip` at `V = 40000`, `t0 = 0`. -/
theorem c2_binary_roundtrip_witness :
    ((40000 : ℕ) < 2 ^ 16 ∧ (0 : ℤ) ≤ 0)
  ∧ ((runEdges .allOk (binaryEntryState 0)
        (transmission 0 (msbBits 16 40000))).animalID = some (.idNum 40000)
      ∧ (runEdges .allOk (binaryEntryState 0)
        (transmission 0 (msbBits 16 40000))).ttlMode = .Normal) :=
  ⟨⟨by decide, by decide⟩,
   (c2_binary_roundtrip 40000 (by decide) 0 (by decide)).1⟩

/-! ## Claim C1: burst-to-session-start protocol -/

lemma fireReady_single_later (o : StartOutcome) (t ft : ℤ) (s : CamState)
    (h : s.pendingFires = [ft]) (hgt : ¬ ft ≤ t) :
    fireReady o t s = s := by
  cases s
  simp_all [fireReady]

/-- Rising edge in Normal mode: only the rise time, the live flag and
(depending on the preceding gap) the consecutive count change. -/
lemma rising_edge_normal (t' : ℤ) (s : CamState)
    (hmode : s.ttlMode = .Normal) :
    GPIO_rising_edge t' s =
      if t' - s.lastFall > 100000 then
        { s with lastRise := t', gpioActive := true, numConsecTTLs := 0 }
      else
        { s with lastRise := t', gpioActive := true } := by
  by_cases h : t' - s.lastFall > 100000 <;>
    simp [GPIO_rising_edge, hmode, h]

/-- Falling edge of a short (trial-band) pulse in Normal mode. -/
lemma falling_edge_trial (t' : ℤ) (s : CamState)
    (hmode : s.ttlMode = .Normal) (hrise : ¬ s.lastRise < 0)
    (hdeb : ¬ (t' - s.lastRise < 5000)) (hshort : t' - s.lastRise < 200000) :
    GPIO_falling_edge t' s =
      handle_GPIO_pulse t'
        { s with lastFall := t', gpioActive := false,
                 numConsecTTLs := s.numConsecTTLs + 1 } := by
  simp [GPIO_falling_edge, hmode, hrise, hdeb, hshort]

/-- A trial pulse while idle below the start threshold is ignored. -/
lemma handle_pulse_idle_below (t' : ℤ) (s : CamState)
    (hrec : s.isRecording = false) (hn : s.numConsecTTLs ≠ 2) :
    handle_GPIO_pulse t' s = s := by
  simp [handle_GPIO_pulse, hrec, NUM_TTL_PULSES_TO_START_SESSION, hn]

/-- The exactly-`N_start`-th trial pulse while idle schedules the delayed
start (settle window 0.5s). -/
lemma handle_pulse_idle_schedule (t' : ℤ) (s : CamState)
    (hrec : s.isRecording = false) (hn : s.numConsecTTLs = 2) :
    handle_GPIO_pulse t' s =
      { s with pendingFires := s.pendingFires ++ [t' + 500000],
               pendingStartTimer := 16 } := by
  simp [handle_GPIO_pulse, hrec, NUM_TTL_PULSES_TO_START_SESSION, hn]

set_option maxHeartbeats 1000000 in
/-- Claim C1: from an idle session, two short pulses (widths in the trial
band, inter-pulse gap at most the burst threshold) followed by a quiet
settle window produce exactly one session start — the session moves from
idle to recording and all three sinks are created — while the same burst
followed by a third qualifying pulse inside the settle window produces zero
session starts and no recording. -/
theorem c1_burst_start (r1 w1 g1 w2 g2 w3 : ℤ)
    (hr1 : 0 ≤ r1)
    (hw1l : 5000 ≤ w1) (hw1u : w1 < 200000)
    (hg1l : 0 < g1) (hg1u : g1 ≤ 100000)
    (hw2l : 5000 ≤ w2) (hw2u : w2 < 200000)
    (hg2l : 0 < g2) (hg2u : g2 ≤ 100000)
    (hw3l : 5000 ≤ w3) (hw3u : w3 < 200000) :
    ((fireAll .allOk (runEdges .allOk initState
        [.rise r1, .fall (r1 + w1), .rise (r1 + w1 + g1),
         .fall (r1 + w1 + g1 + w2)])).sessionStarts = 1
      ∧ (fireAll .allOk (runEdges .allOk initState
        [.rise r1, .fall (r1 + w1), .rise (r1 + w1 + g1),
         .fall (r1 + w1 + g1 + w2)])).isRecording = true
      ∧ (fireAll .allOk (runEdges .allOk initState
        [.rise r1, .fall (r1 + w1), .rise (r1 + w1 + g1),
         .fall (r1 + w1 + g1 + w2)])).writer = .createdW true
      ∧ (fireAll .allOk (runEdges .allOk initState
        [.rise r1, .fall (r1 + w1), .rise (r1 + w1 + g1),
         .fall (r1 + w1 + g1 + w2)])).fid = .openF
      ∧ (fireAll .allOk (runEdges .allOk initState
        [.rise r1, .fall (r1 + w1), .rise (r1 + w1 + g1),
         .fall (r1 + w1 + g1 + w2)])).fidTTL = .openF)
  ∧ ((fireAll .allOk (runEdges .allOk initState
        [.rise r1, .fall (r1 + w1), .rise (r1 + w1 + g1),
         .fall (r1 + w1 + g1 + w2), .rise (r1 + w1 + g1 + w2 + g2),
         .fall (r1 + w1 + g1 + w2 + g2 + w3)])).sessionStarts = 0
      ∧ (fireAll .allOk (runEdges .allOk initState
        [.rise r1, .fall (r1 + w1), .rise (r1 + w1 + g1),
         .fall (r1 + w1 + g1 + w2), .rise (r1 + w1 + g1 + w2 + g2),
         .fall (r1 + w1 + g1 + w2 + g2 + w3)])).isRecording = false) := by
  have e1 : procEdge .allOk initState (.rise r1)
      = { initState with
          lastRise := r1,
          gpioActive := true } := by
    show GPIO_rising_edge r1 (fireReady .allOk r1 initState) = _
    rw [fireReady_nil .allOk r1 initState rfl,
        rising_edge_normal r1 initState rfl]
    split_ifs <;> rfl
  have e2 : procEdge .allOk
        { initState with
          lastRise := r1,
          gpioActive := true }
        (.fall (r1 + w1))
      = { initState with
          lastRise := r1,
          lastFall := r1 + w1,
          numConsecTTLs := 1,
          gpioActive := false } := by
    show GPIO_falling_edge (r1 + w1)
      (fireReady .allOk (r1 + w1)
        { initState with
          lastRise := r1,
          gpioActive := true }) = _
    rw [fireReady_nil .allOk (r1 + w1) _ rfl,
        falling_edge_trial (r1 + w1) _ rfl
          (show ¬ (r1 : ℤ) < 0 by omega)
          (show ¬ (r1 + w1 - r1 < 5000) by omega)
          (show r1 + w1 - r1 < 200000 by omega)]
    refine handle_pulse_idle_below _ _ rfl ?_
    simp [initState]
  have e3 : procEdge .allOk
        { initState with
          lastRise := r1,
          lastFall := r1 + w1,
          numConsecTTLs := 1,
          gpioActive := false }
        (.rise (r1 + w1 + g1))
      = { initState with
          lastRise := r1 + w1 + g1,
          lastFall := r1 + w1,
          numConsecTTLs := 1,
          gpioActive := true } := by
    show GPIO_rising_edge (r1 + w1 + g1)
      (fireReady .allOk (r1 + w1 + g1)
        { initState with
          lastRise := r1,
          lastFall := r1 + w1,
          numConsecTTLs := 1,
          gpioActive := false }) = _
    rw [fireReady_nil .allOk (r1 + w1 + g1) _ rfl,
        rising_edge_normal (r1 + w1 + g1) _ rfl,
        if_neg (show ¬ (r1 + w1 + g1 - (r1 + w1) > 100000) by omega)]
  have e4 : procEdge .allOk
        { initState with
          lastRise := r1 + w1 + g1,
          lastFall := r1 + w1,
          numConsecTTLs := 1,
          gpioActive := true }
        (.fall (r1 + w1 + g1 + w2))
      = { initState with
          lastRise := r1 + w1 + g1,
          lastFall := r1 + w1 + g1 + w2,
          numConsecTTLs := 2,
          gpioActive := false,
          pendingStartTimer := 16,
          pendingFires := [r1 + w1 + g1 + w2 + 500000] } := by
    show GPIO_falling_edge (r1 + w1 + g1 + w2)
      (fireReady .allOk (r1 + w1 + g1 + w2)
        { initState with
          lastRise := r1 + w1 + g1,
          lastFall := r1 + w1,
          numConsecTTLs := 1,
          gpioActive := true }) = _
    rw [fireReady_nil .allOk (r1 + w1 + g1 + w2) _ rfl,
        falling_edge_trial (r1 + w1 + g1 + w2) _ rfl
          (show ¬ (r1 + w1 + g1 : ℤ) < 0 by omega)
          (show ¬ (r1 + w1 + g1 + w2 - (r1 + w1 + g1) < 5000) by omega)
          (show r1 + w1 + g1 + w2 - (r1 + w1 + g1) < 200000 by omega)]
    refine handle_pulse_idle_schedule _ _ rfl ?_
    simp [initState]
  have hrun1 : runEdges .allOk initState
      [.rise r1, .fall (r1 + w1), .rise (r1 + w1 + g1),
       .fall (r1 + w1 + g1 + w2)]
      = { initState with
          lastRise := r1 + w1 + g1,
          lastFall := r1 + w1 + g1 + w2,
          numConsecTTLs := 2,
          gpioActive := false,
          pendingStartTimer := 16,
          pendingFires := [r1 + w1 + g1 + w2 + 500000] } := by
    rw [runEdges_cons, e1, runEdges_cons, e2, runEdges_cons, e3,
        runEdges_cons, e4, runEdges_nil]
  have hfire1 : fireAll .allOk
      { initState with
        lastRise := r1 + w1 + g1,
        lastFall := r1 + w1 + g1 + w2,
        numConsecTTLs := 2,
        gpioActive := false,
        pendingStartTimer := 16,
        pendingFires := [r1 + w1 + g1 + w2 + 500000] }
      = { initState with
          lastRise := r1 + w1 + g1,
          lastFall := r1 + w1 + g1 + w2,
          numConsecTTLs := 2,
          gpioActive := false,
          pendingStartTimer := 16,
          ttlNum := 0,
          writer := .createdW true,
          fid := .openF,
          fidTTL := .openF,
          startRecordingTime := r1 + w1 + g1 + w2 + 500000,
          isRecording := true,
          sessionStarts := 1 } := by
    simp [fireAll, fire_one, start_record, StartOutcome.allOk,
          NUM_TTL_PULSES_TO_START_SESSION, initState]
  have e5 : procEdge .allOk
        { initState with
          lastRise := r1 + w1 + g1,
          lastFall := r1 + w1 + g1 + w2,
          numConsecTTLs := 2,
          gpioActive := false,
          pendingStartTimer := 16,
          pendingFires := [r1 + w1 + g1 + w2 + 500000] }
        (.rise (r1 + w1 + g1 + w2 + g2))
      = { initState with
          lastRise := r1 + w1 + g1 + w2 + g2,
          lastFall := r1 + w1 + g1 + w2,
          numConsecTTLs := 2,
          gpioActive := true,
          pendingStartTimer := 16,
          pendingFires := [r1 + w1 + g1 + w2 + 500000] } := by
    show GPIO_rising_edge (r1 + w1 + g1 + w2 + g2)
      (fireReady .allOk (r1 + w1 + g1 + w2 + g2)
        { initState with
          lastRise := r1 + w1 + g1,
          lastFall := r1 + w1 + g1 + w2,
          numConsecTTLs := 2,
          gpioActive := false,
          pendingStartTimer := 16,
          pendingFires := [r1 + w1 + g1 + w2 + 500000] }) = _
    rw [fireReady_single_later .allOk (r1 + w1 + g1 + w2 + g2)
          (r1 + w1 + g1 + w2 + 500000) _ rfl
          (show ¬ (r1 + w1 + g1 + w2 + 500000 ≤ r1 + w1 + g1 + w2 + g2)
            by omega),
        rising_edge_normal (r1 + w1 + g1 + w2 + g2) _ rfl,
        if_neg (show ¬ (r1 + w1 + g1 + w2 + g2 - (r1 + w1 + g1 + w2)
          > 100000) by omega)]
  have e6 : procEdge .allOk
        { initState with
          lastRise := r1 + w1 + g1 + w2 + g2,
          lastFall := r1 + w1 + g1 + w2,
          numConsecTTLs := 2,
          gpioActive := true,
          pendingStartTimer := 16,
          pendingFires := [r1 + w1 + g1 + w2 + 500000] }
        (.fall (r1 + w1 + g1 + w2 + g2 + w3))
      = { initState with
          lastRise := r1 + w1 + g1 + w2 + g2,
          lastFall := r1 + w1 + g1 + w2 + g2 + w3,
          numConsecTTLs := 3,
          gpioActive := false,
          pendingStartTimer := 16,
          pendingFires := [r1 + w1 + g1 + w2 + 500000] } := by
    show GPIO_falling_edge (r1 + w1 + g1 + w2 + g2 + w3)
      (fireReady .allOk (r1 + w1 + g1 + w2 + g2 + w3)
        { initState with
          lastRise := r1 + w1 + g1 + w2 + g2,
          lastFall := r1 + w1 + g1 + w2,
          numConsecTTLs := 2,
          gpioActive := true,
          pendingStartTimer := 16,
          pendingFires := [r1 + w1 + g1 + w2 + 500000] }) = _
    rw [fireReady_single_later .allOk (r1 + w1 + g1 + w2 + g2 + w3)
          (r1 + w1 + g1 + w2 + 500000) _ rfl
          (show ¬ (r1 + w1 + g1 + w2 + 500000
            ≤ r1 + w1 + g1 + w2 + g2 + w3) by omega),
        falling_edge_trial (r1 + w1 + g1 + w2 + g2 + w3) _ rfl
          (show ¬ (r1 + w1 + g1 + w2 + g2 : ℤ) < 0 by omega)
          (show ¬ (r1 + w1 + g1 + w2 + g2 + w3
            - (r1 + w1 + g1 + w2 + g2) < 5000) by omega)
          (show r1 + w1 + g1 + w2 + g2 + w3
            - (r1 + w1 + g1 + w2 + g2) < 200000 by omega)]
    refine handle_pulse_idle_below _ _ rfl ?_
    simp [initState]
  have hrun2 : runEdges .allOk initState
      [.rise r1, .fall (r1 + w1), .rise (r1 + w1 + g1),
       .fall (r1 + w1 + g1 + w2), .rise (r1 + w1 + g1 + w2 + g2),
       .fall (r1 + w1 + g1 + w2 + g2 + w3)]
      = { initState with
          lastRise := r1 + w1 + g1 + w2 + g2,
          lastFall := r1 + w1 + g1 + w2 + g2 + w3,
          numConsecTTLs := 3,
          gpioActive := false,
          pendingStartTimer := 16,
          pendingFires := [r1 + w1 + g1 + w2 + 500000] } := by
    rw [runEdges_cons, e1, runEdges_cons, e2, runEdges_cons, e3,
        runEdges_cons, e4, runEdges_cons, e5, runEdges_cons, e6,
        runEdges_nil]
  have hfire2 : fireAll .allOk
      { initState with
        lastRise := r1 + w1 + g1 + w2 + g2,
        lastFall := r1 + w1 + g1 + w2 + g2 + w3,
        numConsecTTLs := 3,
        gpioActive := false,
        pendingStartTimer := 16,
        pendingFires := [r1 + w1 + g1 + w2 + 500000] }
      = { initState with
          lastRise := r1 + w1 + g1 + w2 + g2,
          lastFall := r1 + w1 + g1 + w2 + g2 + w3,
          numConsecTTLs := 3,
          gpioActive := false,
          pendingStartTimer := 16 } := by
    simp [fireAll, fire_one, NUM_TTL_PULSES_TO_START_SESSION, initState]
  rw [hrun1, hrun2, hfire1, hfire2]
  refine ⟨⟨rfl, rfl, rfl, rfl, rfl⟩, rfl, rfl⟩

/-- Witness for `c1_burst_start` at concrete 100ms pulses with 50ms gaps
starting at t = 1s. -/
theorem c1_burst_start_witness :
    ((0 : ℤ) ≤ 1000000
      ∧ (5000 : ℤ) ≤ 100000 ∧ (100000 : ℤ) < 200000
      ∧ (0 : ℤ) < 50000 ∧ (50000 : ℤ) ≤ 100000)
  ∧ (((fireAll .allOk (runEdges .allOk initState
        [.rise 1000000, .fall (1000000 + 100000),
         .rise (1000000 + 100000 + 50000),
         .fall (1000000 + 100000 + 50000 + 100000)])).sessionStarts = 1
      ∧ (fireAll .allOk (runEdges .allOk initState
        [.rise 1000000, .fall (1000000 + 100000),
         .rise (1000000 + 100000 + 50000),
         .fall (1000000 + 100000 + 50000 + 100000)])).isRecording = true
      ∧ (fireAll .allOk (runEdges .allOk initState
        [.rise 1000000, .fall (1000000 + 100000),
         .rise (1000000 + 100000 + 50000),
         .fall (1000000 + 100000 + 50000 + 100000)])).writer = .createdW true
      ∧ (fireAll .allOk (runEdges .allOk initState
        [.rise 1000000, .fall (1000000 + 100000),
         .rise (1000000 + 100000 + 50000),
         .fall (1000000 + 100000 + 50000 + 100000)])).fid = .openF
      ∧ (fireAll .allOk (runEdges .allOk initState
        [.rise 1000000, .fall (1000000 + 100000),
         .rise (1000000 + 100000 + 50000),
         .fall (1000000 + 100000 + 50000 + 100000)])).fidTTL = .openF)
    ∧ ((fireAll .allOk (runEdges .allOk initState
        [.rise 1000000, .fall (1000000 + 100000),
         .rise (1000000 + 100000 + 50000),
         .fall (1000000 + 100000 + 50000 + 100000),
         .rise (1000000 + 100000 + 50000 + 100000 + 50000),
         .fall (1000000 + 100000 + 50000 + 100000 + 50000 + 100000)])).sessionStarts
          = 0
      ∧ (fireAll .allOk (runEdges .allOk initState
        [.rise 1000000, .fall (1000000 + 100000),
         .rise (1000000 + 100000 + 50000),
         .fall (1000000 + 100000 + 50000 + 100000),
         .rise (1000000 + 100000 + 50000 + 100000 + 50000),
         .fall (1000000 + 100000 + 50000 + 100000 + 50000 + 100000)])).isRecording
          = false)) :=
  ⟨⟨by decide, by decide, by decide, by decide, by decide⟩,
   c1_burst_start 1000000 100000 50000 100000 50000 100000
     (by decide) (by decide) (by decide) (by decide) (by decide) (by decide)
     (by decide) (by decide) (by decide) (by decide) (by decide)⟩

end Pi5Webcam
